import Mathlib

/-!
Shallow embedding of the core of the Aerohack-2025 Rubik's-cube solver
(`src/cube/{colour,move,cube,history_cube,pieces,solver}.py` and
`src/scramble/{parser,cleaner}.py`), together with theorems settling the
frozen claims about the specification.

Python's mutable `Cube` objects are modelled by explicit state passing:
every method that mutates the cube becomes a function returning the new
state, and methods that both return a value and touch state return a pair.
-/

namespace Aerohack

/-- The apostrophe character used by the prime move notation. -/
def primeCh : Char := Char.ofNat 39

/-- `colour.py`: the six sticker colours.  The Python module represents them
as RGB triples; only their identity is ever used, so they are modelled as a
six-element inductive. -/
inductive Colour where
  | white
  | green
  | orange
  | yellow
  | blue
  | red
deriving DecidableEq, Repr

def WHITE : Colour := Colour.white
def GREEN : Colour := Colour.green
def ORANGE : Colour := Colour.orange
def YELLOW : Colour := Colour.yellow
def BLUE : Colour := Colour.blue
def RED : Colour := Colour.red

/-- `move.py`: a single move.  `face` is the face letter (`U D F B L R`, or
`y` for a whole-cube rotation; the parser can also produce other characters),
`invert` is the prime flag, `double` the 180-degree flag. -/
structure Move where
  face : Char
  invert : Bool
  double : Bool
deriving DecidableEq, Repr

/-! ### `parser.py` -/

/-- Helper for `pySplit`: accumulates the current word (reversed). -/
def pySplitAux : List Char → List Char → List String
  | [], acc => if acc.isEmpty then [] else [String.mk acc.reverse]
  | ch :: cs, acc =>
    if ch.isWhitespace then
      if acc.isEmpty then pySplitAux cs [] else String.mk acc.reverse :: pySplitAux cs []
    else pySplitAux cs (ch :: acc)

/-- Python's `str.split()` with no separator: split on runs of whitespace,
dropping empty tokens. -/
def pySplit (s : String) : List String := pySplitAux s.data []

/-- One token of `scramble_to_moves`: `is_prime = "'" in move`,
`is_double = "2" in move`, `face = move[0]` (tokens from `split()` are never
empty, so the default of `getD` is unreachable). -/
def tokenToMove (t : String) : Move :=
  { face := t.data.getD 0 ' ', invert := t.data.contains primeCh, double := t.data.contains '2' }

/-- `parser.scramble_to_moves`. -/
def scrambleToMoves (s : String) : List Move := (pySplit s).map tokenToMove

/-- `parser.moves_to_scramble`, single move: face letter, then `2` if double,
else `'` if invert (the Python code checks `double` first). -/
def moveToStr (m : Move) : String :=
  String.mk [m.face] ++ (if m.double then "2" else if m.invert then String.mk [primeCh] else "")

/-- `parser.moves_to_scramble`. -/
def movesToScramble (ms : List Move) : String := String.intercalate " " (ms.map moveToStr)

/-- The per-move inversion of `parser.invert_moves`:
`Move(move.face, not move.invert, move.double)`. -/
def flipMove (m : Move) : Move :=
  { face := m.face, invert := !m.invert, double := m.double }

/-- `parser.invert_moves`: reverse the order, flip each `invert` flag, keep
`double`. -/
def invertMoves (ms : List Move) : List Move := ms.reverse.map flipMove

/-! ### `cleaner.py` -/

/-- `cleaner.is_double`: `move[1] == "2"`, with `IndexError` giving `False`. -/
def isDoubleTok (t : String) : Bool :=
  match t.data with
  | _ :: c :: _ => c = '2'
  | _ => false

/-- `cleaner.is_prime`: `move[1] == "'"`, with `IndexError` giving `False`. -/
def isPrimeTok (t : String) : Bool :=
  match t.data with
  | _ :: c :: _ => c = primeCh
  | _ => false

/-- The body of `clean_moves`' `while` loop.  `fuel` only bounds the
recursion; the loop itself terminates because every iteration either removes
tokens or advances `seq`.  After a combination the Python code does
`seq -= 1` and then `seq += 1` at the end of the iteration, so `seq` is
re-examined unchanged; that net effect is modelled directly. -/
def cleanLoop : Nat → List String → Nat → List String
  | 0, split, _ => split
  | fuel + 1, split, seq =>
    if seq < split.length then
      if seq + 1 < split.length then
        let t0 := split.getD seq ""
        let t1 := split.getD (seq + 1) ""
        if t0.data.getD 0 ' ' = t1.data.getD 0 ' ' then
          let split' :=
            if !isPrimeTok t0 && !isDoubleTok t0 then
              -- first move is normal
              if !isPrimeTok t1 && !isDoubleTok t1 then
                (split.eraseIdx (seq + 1)).set seq (t0 ++ "2")
              else if isPrimeTok t1 then
                (split.eraseIdx seq).eraseIdx seq
              else
                (split.eraseIdx (seq + 1)).set seq (t0 ++ String.mk [primeCh])
            else if isPrimeTok t0 then
              -- first move is prime
              if !isPrimeTok t1 && !isDoubleTok t1 then
                (split.eraseIdx seq).eraseIdx seq
              else if isPrimeTok t1 then
                (split.eraseIdx (seq + 1)).set seq (String.mk [t0.data.getD 0 ' '] ++ "2")
              else
                (split.eraseIdx (seq + 1)).set seq (String.mk [t0.data.getD 0 ' '])
            else
              -- first move is double
              if !isPrimeTok t1 && !isDoubleTok t1 then
                let s' := split.eraseIdx seq
                s'.set seq (String.mk [(s'.getD seq "").data.getD 0 ' '] ++ String.mk [primeCh])
              else if isPrimeTok t1 then
                (split.eraseIdx (seq + 1)).set seq (String.mk [t0.data.getD 0 ' '])
              else
                (split.eraseIdx seq).eraseIdx seq
          cleanLoop fuel split' seq
        else cleanLoop fuel split (seq + 1)
      else split
    else split

/-- `cleaner.clean_moves`.  The fuel `2 * n + 2` dominates the loop's running
time: every iteration either deletes at least one token or advances `seq`. -/
def cleanMoves (scramble : String) : String :=
  let split := pySplit scramble
  String.intercalate " " (cleanLoop (2 * split.length + 2) split 0)

/-! ### `cube.py`: cube state and move engine

The Python `Cube` stores `self.faces`, a dict with the six fixed keys
`U F L B R D`, each a list of rows of colours, plus `self.size`, which no
method other than `__init__` ever reads.  The dict is modelled as a structure
with six fields; the move engine is polymorphic in the sticker type because
it only ever moves entries, never inspects them. -/

abbrev Row (α : Type) := List α
abbrev Grid (α : Type) := List (Row α)

structure Faces (α : Type) where
  U : Grid α
  F : Grid α
  L : Grid α
  B : Grid α
  R : Grid α
  D : Grid α
deriving DecidableEq, Repr

/-- `cube._transpose` is `[list(i) for i in zip(*l)]`: the number of output
rows is the shortest input row (Python's `zip` truncates). -/
def pyZipLen (g : Grid α) : Nat :=
  match g with
  | [] => 0
  | r :: rs => rs.foldl (fun m r' => min m r'.length) r.length

/-- `cube._transpose`. -/
def pyTranspose (g : Grid α) : Grid α :=
  (List.range (pyZipLen g)).map fun j => g.filterMap fun row => row.get? j

/-- Python `g[0]` (rows are never empty in any reachable state, so the
default is unreachable). -/
def headRow (g : Grid α) : Row α := g.getD 0 []

/-- Python `g[-1]`. -/
def lastRow (g : Grid α) : Row α := g.getD (g.length - 1) []

/-- Python `g[-1] = r`. -/
def setLastRow (g : Grid α) (r : Row α) : Grid α := g.set (g.length - 1) r

/-- Dict access `self.faces[face]`; an unknown key would be a `KeyError` in
Python, modelled by the empty grid (never reached by the solver). -/
def getFace (f : Faces α) (c : Char) : Grid α :=
  if c = 'U' then f.U
  else if c = 'F' then f.F
  else if c = 'L' then f.L
  else if c = 'B' then f.B
  else if c = 'R' then f.R
  else if c = 'D' then f.D
  else []

/-- Dict update `self.faces[face] = g`. -/
def setFace (f : Faces α) (c : Char) (g : Grid α) : Faces α :=
  if c = 'U' then { f with U := g }
  else if c = 'F' then { f with F := g }
  else if c = 'L' then { f with L := g }
  else if c = 'B' then { f with B := g }
  else if c = 'R' then { f with R := g }
  else if c = 'D' then { f with D := g }
  else f

/-- `cube._face_rotate`: 90-degree clockwise rotation of one face's grid,
`zip(*self.faces[face][::-1])`. -/
def faceRotate (f : Faces α) (c : Char) : Faces α :=
  setFace f c (pyTranspose ((getFace f c).reverse))

/-- One iteration of `cube._y_rotate`'s loop: relabel `F L B R` from
`l[-1:] + l[:-1]`, then rotate the `U` grid once and the `D` grid three
times. -/
def yStep (f : Faces α) : Faces α :=
  let f1 : Faces α := { f with F := f.R, L := f.F, B := f.L, R := f.B }
  let f2 := faceRotate f1 'U'
  faceRotate (faceRotate (faceRotate f2 'D') 'D') 'D'

def yIter (f : Faces α) : Nat → Faces α
  | 0 => f
  | n + 1 => yIter (yStep f) n

/-- `cube._y_rotate(double, inverse)`: the loop runs `2 if double else
3 if inverse else 1` times. -/
def yRotate (f : Faces α) (double inverse : Bool) : Faces α :=
  yIter f (if double then 2 else if inverse then 3 else 1)

/-- `cube._adjacent_face_swap`, case `U`: the top rows of `F L B R` are
assigned `l[-1:] + l[:-1]` where `l = [F[0], L[0], B[0], R[0]]`. -/
def adjSwapU (f : Faces α) : Faces α :=
  { f with
    F := f.F.set 0 (headRow f.R)
    L := f.L.set 0 (headRow f.F)
    B := f.B.set 0 (headRow f.L)
    R := f.R.set 0 (headRow f.B) }

/-- `cube._adjacent_face_swap`, case `D`: the bottom rows of `F L B R` are
assigned `l[1:] + l[:1]`. -/
def adjSwapD (f : Faces α) : Faces α :=
  { f with
    F := setLastRow f.F (lastRow f.L)
    L := setLastRow f.L (lastRow f.B)
    B := setLastRow f.B (lastRow f.R)
    R := setLastRow f.R (lastRow f.F) }

/-- `cube._adjacent_face_swap`, case `F`: with `l = [U, Rᵀ, D, Lᵀ]` and
`r = [U[-1], Rᵀ[0][::-1], D[0], Lᵀ[-1][::-1]]`, the slots
`U[-1], Rᵀ[0], D[0], Lᵀ[-1]` are assigned `r[-1:] + r[:-1]`, and `R`/`L` are
transposed back. -/
def adjSwapF (f : Faces α) : Faces α :=
  let rT := pyTranspose f.R
  let lT := pyTranspose f.L
  let r0 := lastRow f.U
  let r1 := (headRow rT).reverse
  let r2 := headRow f.D
  let r3 := (lastRow lT).reverse
  { f with
    U := setLastRow f.U r3
    R := pyTranspose (rT.set 0 r0)
    D := f.D.set 0 r1
    L := pyTranspose (setLastRow lT r2) }

/-- `cube._adjacent_face_swap`: `R`, `L` and `B` are derived from the `F`
case by conjugating with whole-cube `y` rotations, exactly as in the
source. -/
def adjacentFaceSwap (f : Faces α) (face : Char) : Faces α :=
  if face = 'U' then adjSwapU f
  else if face = 'D' then adjSwapD f
  else if face = 'F' then adjSwapF f
  else if face = 'R' then yRotate (adjSwapF (yRotate f false false)) false true
  else if face = 'L' then yRotate (adjSwapF (yRotate f false true)) false false
  else if face = 'B' then yRotate (adjSwapF (yRotate f true false)) true false
  else f

/-- One quarter-turn step of `cube._rotate`'s loop: `_face_rotate` then
`_adjacent_face_swap`. -/
def turn (f : Faces α) (face : Char) : Faces α :=
  adjacentFaceSwap (faceRotate f face) face

def turnIter (f : Faces α) (face : Char) : Nat → Faces α
  | 0 => f
  | n + 1 => turnIter (turn f face) face n

/-- `cube._rotate`: the `(face_rotate; adjacent_swap)` pair runs
`2 if double else 3 if invert else 1` times. -/
def rotate (f : Faces α) (m : Move) : Faces α :=
  turnIter f m.face (if m.double then 2 else if m.invert then 3 else 1)

/-- One move of `cube.do_moves`' loop: a `y` move calls `_y_rotate()` with
its default arguments (both flags `False`), every other face goes through
`_rotate`. -/
def applyMove (f : Faces α) (m : Move) : Faces α :=
  if m.face = 'y' then yRotate f false false else rotate f m

/-- `cube.do_moves` on an already-parsed move list. -/
def doMoves (f : Faces α) (ms : List Move) : Faces α := ms.foldl applyMove f

/-- `cube.do_moves` on a notation string: parse first, then apply. -/
def doMovesStr (f : Faces α) (s : String) : Faces α := doMoves f (scrambleToMoves s)

/-- `cube._generate_face`. -/
def generateFace (colour : Colour) (size : Nat) : Grid Colour :=
  List.replicate size (List.replicate size colour)

/-- `Cube.__init__`'s faces, from `INITIAL_FACE_COLOUR_MAPPING`
(U white, F green, L orange, B blue, R red, D yellow). -/
def initFaces (size : Nat) : Faces Colour :=
  { U := generateFace WHITE size
    F := generateFace GREEN size
    L := generateFace ORANGE size
    B := generateFace BLUE size
    R := generateFace RED size
    D := generateFace YELLOW size }

/-- The solved size-3 cube state. -/
def solvedFaces : Faces Colour := initFaces 3

/-- A `Cube` value: `self.size` plus `self.faces`. -/
structure Cube where
  size : Nat
  faces : Faces Colour
deriving DecidableEq, Repr

/-- `Cube(size)`. -/
def cubeNew (size : Nat) : Cube := { size := size, faces := initFaces size }

/-- `cube.is_solved` for one face: every cell equals `face[0][0]`. -/
def gridSolved (g : Grid Colour) : Bool :=
  g.all fun row => row.all fun x => x = (headRow g).getD 0 WHITE

/-- `cube.is_solved`: every face's cells hold one uniform colour.  The
Python loop over `self.faces.values()` returns `False` at the first
offending face; `&&` short-circuits the same way. -/
def isSolved (f : Faces Colour) : Bool :=
  gridSolved f.U && gridSolved f.F && gridSolved f.L && gridSolved f.B &&
    gridSolved f.R && gridSolved f.D

/-! ### `pieces.py`: canonicalisation tables -/

/-- `pieces.EDGE_TO_UF`, in insertion order. -/
def EDGE_TO_UF : List (String × String) :=
  [("UF", "U2 U2"), ("UL", "U'"), ("UR", "U"), ("UB", "U2"),
   ("LB", "L2 F"), ("LD", "L' F"), ("LF", "F"),
   ("RB", "R2 F'"), ("RD", "R F'"), ("RF", "F'"),
   ("DB", "D2 F2"), ("DF", "F2")]

/-- `pieces.CORNER_TO_UFR`, in insertion order. -/
def CORNER_TO_UFR : List (String × String) :=
  [("UFR", "U2 U2"), ("DFR", "R"), ("DBR", "R2"), ("URB", "U"),
   ("ULF", "U'"), ("UBL", "U2"), ("DFL", "L' U'"), ("DBL", "L2 U'")]

/-- An `Edge`/`Corner` value: a piece-letter-to-colour dict, in insertion
order. -/
abbrev PieceInfo := List (Char × Colour)

/-- Dict access `info[key]` (the key is always present when the solver
queries, so the default is unreachable). -/
def infoGet (info : PieceInfo) (k : Char) : Colour := (info.lookup k).getD WHITE

/-- `itertools.permutations`, emitting permutations in Python's order:
positions are chosen left to right in index order.  The fuel equals the
length of the list. -/
def pyPermsAux : Nat → List Char → List (List Char)
  | 0, _ => [[]]
  | n + 1, l =>
    (List.range l.length).flatMap fun i => (pyPermsAux n (l.eraseIdx i)).map (l.getD i ' ' :: ·)

def pyPerms (l : List Char) : List (List Char) := pyPermsAux l.length l

/-! ### `cube.py`: piece access on the plain `Cube`

`Cube.get_edge`/`get_corner` apply the setup moves from the table, read the
canonical-slot stickers, and then merely *compute* `parser.invert_moves(moves)`
without ever applying it — the teardown is missing, so the mutated state
`f1` is what the caller's cube is left with. -/

/-- `Cube.get_edge` (note: the result of `parser.invert_moves` is discarded
in the source, so the setup moves are not undone). -/
def cubeGetEdge (f : Faces Colour) (piece : String) : Option (PieceInfo × Faces Colour) :=
  match EDGE_TO_UF.lookup piece with
  | none => none
  | some alg =>
    let moves := scrambleToMoves alg
    let f1 := doMoves f moves
    let info : PieceInfo :=
      [(piece.data.getD 0 ' ', (lastRow f1.U).getD 1 WHITE),
       (piece.data.getD 1 ' ', (headRow f1.F).getD 1 WHITE)]
    let _ := invertMoves moves
    some (info, f1)

/-- `Cube.get_corner` (same missing teardown as `Cube.get_edge`). -/
def cubeGetCorner (f : Faces Colour) (piece : String) : Option (PieceInfo × Faces Colour) :=
  match CORNER_TO_UFR.lookup piece with
  | none => none
  | some alg =>
    let moves := scrambleToMoves alg
    let f1 := doMoves f moves
    let info : PieceInfo :=
      [(piece.data.getD 0 ' ', (lastRow f1.U).getD ((lastRow f1.U).length - 1) WHITE),
       (piece.data.getD 1 ' ', (headRow f1.F).getD ((headRow f1.F).length - 1) WHITE),
       (piece.data.getD 2 ' ', (headRow f1.R).getD 0 WHITE)]
    let _ := invertMoves moves
    some (info, f1)

/-- The permutation scan of `Cube.get_sticker`: the first permutation of the
label found in the edge table is read as an edge, else the corner table is
tried; `None` models the `ValueError` when no permutation matches. -/
def cubeGetStickerAux (f : Faces Colour) (sticker : String) :
    List (List Char) → Option (Colour × Faces Colour)
  | [] => none
  | p :: ps =>
    let key := String.mk p
    if (EDGE_TO_UF.lookup key).isSome then
      (cubeGetEdge f key).map fun r => (infoGet r.1 (sticker.data.getD 0 ' '), r.2)
    else if (CORNER_TO_UFR.lookup key).isSome then
      (cubeGetCorner f key).map fun r => (infoGet r.1 (sticker.data.getD 0 ' '), r.2)
    else cubeGetStickerAux f sticker ps

/-- `Cube.get_sticker`. -/
def cubeGetSticker (f : Faces Colour) (sticker : String) : Option (Colour × Faces Colour) :=
  cubeGetStickerAux f sticker (pyPerms sticker.data)

/-! ### `history_cube.py`

`HistoryCube` additionally stores `self._history`.  It also stores
`self.size`, which no modelled method ever reads (it is only forwarded to
`Cube.__init__`, whose generated solved faces are immediately overwritten by
the supplied ones), so the field is omitted here.  Its `get_edge`/`get_corner`
overrides do apply the inverted setup moves, with `save_history=False`. -/

structure HistoryCube where
  faces : Faces Colour
  history : List Move
deriving DecidableEq, Repr

/-- `HistoryCube.do_moves(moves, save_history)` on a parsed move list. -/
def hcDoMoves (hc : HistoryCube) (ms : List Move) (saveHistory : Bool) : HistoryCube :=
  { faces := doMoves hc.faces ms
    history := if saveHistory then hc.history ++ ms else hc.history }

/-- `HistoryCube.do_moves` on a notation string. -/
def hcDoMovesStr (hc : HistoryCube) (s : String) (saveHistory : Bool) : HistoryCube :=
  hcDoMoves hc (scrambleToMoves s) saveHistory

/-- `HistoryCube.get_edge`: setup, read, teardown, all unrecorded. -/
def hcGetEdge (hc : HistoryCube) (piece : String) : Option (PieceInfo × HistoryCube) :=
  match EDGE_TO_UF.lookup piece with
  | none => none
  | some alg =>
    let moves := scrambleToMoves alg
    let hc1 := hcDoMoves hc moves false
    let info : PieceInfo :=
      [(piece.data.getD 0 ' ', (lastRow hc1.faces.U).getD 1 WHITE),
       (piece.data.getD 1 ' ', (headRow hc1.faces.F).getD 1 WHITE)]
    let hc2 := hcDoMoves hc1 (invertMoves moves) false
    some (info, hc2)

/-- `HistoryCube.get_corner`: setup, read, teardown, all unrecorded. -/
def hcGetCorner (hc : HistoryCube) (piece : String) : Option (PieceInfo × HistoryCube) :=
  match CORNER_TO_UFR.lookup piece with
  | none => none
  | some alg =>
    let moves := scrambleToMoves alg
    let hc1 := hcDoMoves hc moves false
    let info : PieceInfo :=
      [(piece.data.getD 0 ' ', (lastRow hc1.faces.U).getD ((lastRow hc1.faces.U).length - 1) WHITE),
       (piece.data.getD 1 ' ', (headRow hc1.faces.F).getD ((headRow hc1.faces.F).length - 1) WHITE),
       (piece.data.getD 2 ' ', (headRow hc1.faces.R).getD 0 WHITE)]
    let hc2 := hcDoMoves hc1 (invertMoves moves) false
    some (info, hc2)

/-- `Cube.get_sticker` as inherited by `HistoryCube`: dynamic dispatch means
the overridden (state-restoring) `get_edge`/`get_corner` are called. -/
def hcGetStickerAux (hc : HistoryCube) (sticker : String) :
    List (List Char) → Option (Colour × HistoryCube)
  | [] => none
  | p :: ps =>
    let key := String.mk p
    if (EDGE_TO_UF.lookup key).isSome then
      (hcGetEdge hc key).map fun r => (infoGet r.1 (sticker.data.getD 0 ' '), r.2)
    else if (CORNER_TO_UFR.lookup key).isSome then
      (hcGetCorner hc key).map fun r => (infoGet r.1 (sticker.data.getD 0 ' '), r.2)
    else hcGetStickerAux hc sticker ps

def hcGetSticker (hc : HistoryCube) (sticker : String) : Option (Colour × HistoryCube) :=
  hcGetStickerAux hc sticker (pyPerms sticker.data)

/-! ### `solver.py`: the seven-stage layer-by-layer solver

The stages are translated method by method.  Bounded `for` loops become
recursion on an explicit countdown; the `while` loops of `solve_ocll` and
`solve_epll` have no syntactic bound in the source and receive a fuel
parameter, with `none` modelling non-termination (and the `KeyError`-free
propagation of the piece-lookup `Option`s). -/

/-- `solve_cross`'s local `EDGES` dict, in insertion order. -/
def crossEdges : List (String × String) :=
  [("UF", ""), ("UL", "U'"), ("UR", "U"), ("UB", "U2"),
   ("LB", "L U' L'"), ("LD", "L2 U'"), ("LF", "L' U' L"),
   ("RB", "R' U R"), ("RD", "R2 U"), ("RF", "R U R'"),
   ("DB", "B2 U2"), ("DF", "F2")]

/-- The inner `for edge in EDGES` scan of `solve_cross`, with `break`
modelled by returning after the matching edge is handled. -/
def crossScan (hc : HistoryCube) (colour : Colour) :
    List (String × String) → Option HistoryCube
  | [] => some hc
  | (edge, alg) :: rest => do
    let (info, hc) ← hcGetEdge hc edge
    if (info.map (·.2)) = [colour, YELLOW] ∨ (info.map (·.2)) = [YELLOW, colour] then
      let hc := hcDoMovesStr hc alg true
      let (uf, hc) ← hcGetEdge hc "UF"
      let hc :=
        if infoGet uf 'U' = YELLOW then hcDoMovesStr hc "F2" true
        else hcDoMovesStr hc "R U' R' F" true
      some (hcDoMovesStr hc "D'" true)
    else crossScan hc colour rest

/-- `solve_cross`: one scan per colour in `[BLUE, ORANGE, GREEN, RED]`,
then `D2`. -/
def solveCross (hc : HistoryCube) : Option HistoryCube := do
  let hc ← crossScan hc BLUE crossEdges
  let hc ← crossScan hc ORANGE crossEdges
  let hc ← crossScan hc GREEN crossEdges
  let hc ← crossScan hc RED crossEdges
  some (hcDoMovesStr hc "D2" true)

/-- `solve_corners`' local `CORNERS` dict, in insertion order. -/
def cornerSlots : List (String × String) :=
  [("UFR", "U2 U2"), ("DFR", "R U R' U'"), ("DBR", "R' U R U"), ("URB", "U"),
   ("ULF", "U'"), ("UBL", "U2"), ("DFL", "L' U' L"), ("DBL", "L U L' U")]

/-- The inner `for corner in CORNERS` scan of `solve_corners`. -/
def cornersScan (hc : HistoryCube) (c1 c2 : Colour) :
    List (String × String) → Option HistoryCube
  | [] => some hc
  | (corner, alg) :: rest => do
    let (info, hc) ← hcGetCorner hc corner
    let vals := info.map (·.2)
    if vals.contains c1 && vals.contains c2 && vals.contains YELLOW then
      let hc := hcDoMovesStr hc alg true
      let (s1, hc) ← hcGetSticker hc "UFR"
      let (moves, hc) ←
        if s1 = YELLOW then some ("U R U2 R' U R U' R'", hc)
        else do
          let (s2, hc) ← hcGetSticker hc "FUR"
          if s2 = YELLOW then some ("U R U' R'", hc) else some ("R U R'", hc)
      let hc := hcDoMovesStr hc moves true
      some (hcDoMovesStr hc "D'" true)
    else cornersScan hc c1 c2 rest

/-- `solve_corners`: one scan per colour pair. -/
def solveCorners (hc : HistoryCube) : Option HistoryCube := do
  let hc ← cornersScan hc GREEN RED cornerSlots
  let hc ← cornersScan hc BLUE RED cornerSlots
  let hc ← cornersScan hc BLUE ORANGE cornerSlots
  cornersScan hc GREEN ORANGE cornerSlots

/-- `solve_middle_edges`' local `EDGES` dict, in insertion order. -/
def middleEdges : List (String × String) :=
  [("UF", "U2 U2"), ("UR", "U"), ("UL", "U'"), ("UB", "U2"),
   ("RF", "R' F R F' R U R' U'"), ("LF", "L F' L' F L' U' L U"),
   ("RB", "R' U R B' R B R'"), ("LB", "L U' L' B L' B' L")]

/-- The inner `for edge in EDGES` scan of `solve_middle_edges`. -/
def middleScan (hc : HistoryCube) (c1 c2 : Colour) :
    List (String × String) → Option HistoryCube
  | [] => some hc
  | (edge, alg) :: rest => do
    let (info, hc) ← hcGetEdge hc edge
    let vals := info.map (·.2)
    if vals = [c1, c2] ∨ vals = [c2, c1] then
      let hc := hcDoMovesStr hc alg true
      let (s, hc) ← hcGetSticker hc "FU"
      let moves :=
        if s = c1 then "U R U' R' F R' F' R" else "U2 R' F R F' R U R'"
      let hc := hcDoMovesStr hc moves true
      some (hcDoMovesStr hc "y" true)
    else middleScan hc c1 c2 rest

/-- `solve_middle_edges`: one scan per adjacent colour pair. -/
def solveMiddleEdges (hc : HistoryCube) : Option HistoryCube := do
  let hc ← middleScan hc GREEN RED middleEdges
  let hc ← middleScan hc RED BLUE middleEdges
  let hc ← middleScan hc BLUE ORANGE middleEdges
  middleScan hc ORANGE GREEN middleEdges

/-- `solve_eoll`: up to four attempts; each reads the four top-layer edge
stickers in the order `UB UR UF UL`, matches the white-bit pattern, and
otherwise rotates `U`. -/
def solveEoll : Nat → HistoryCube → Option HistoryCube
  | 0, hc => some hc
  | n + 1, hc => do
    let (s1, hc) ← hcGetSticker hc "UB"
    let (s2, hc) ← hcGetSticker hc "UR"
    let (s3, hc) ← hcGetSticker hc "UF"
    let (s4, hc) ← hcGetSticker hc "UL"
    let eo := [s1 == WHITE, s2 == WHITE, s3 == WHITE, s4 == WHITE]
    if eo = [false, false, false, false] then
      some (hcDoMovesStr hc "R U2 R2 F R F' U2 R' F R F'" true)
    else if eo = [false, false, true, true] then
      some (hcDoMovesStr hc "U F U R U' R' F''" true)
    else if eo = [false, true, false, true] then
      some (hcDoMovesStr hc "F R U R' U' F'" true)
    else solveEoll n (hcDoMovesStr hc "U" true)

/-- `solve_ocll`'s fixed algorithms. -/
def OCLL_S : String := "R U R' U R U2 R' U"
def OCLL_AS : String := "U R' U' R U' R' U2 R"
def OCLL_H : String := "F R U R' U' R U R' U' R U R' U' F'"
def OCLL_Headlights : String := "R2 D' R U2 R' D R U2 R"
def OCLL_Sidebars : String := "U' L F R' F' L' F R F'"
def OCLL_Fish : String := "R' U2 R' D' R U2 R' D R2"
def OCLL_Pi : String := "U R U2 R2 U' R2 U' R2 U2 R"

/-- The `while` loop inside `solve_ocll`'s all-unoriented case:
`while get_sticker("FUR") != WHITE or get_sticker("FUL") != WHITE: do U`.
The `or` short-circuits, so the second lookup only runs when the first
sticker is white. -/
def ocllWhile : Nat → HistoryCube → Option HistoryCube
  | 0, _ => none
  | fuel + 1, hc => do
    let (c1, hc) ← hcGetSticker hc "FUR"
    if c1 ≠ WHITE then ocllWhile fuel (hcDoMovesStr hc "U" true)
    else do
      let (c2, hc) ← hcGetSticker hc "FUL"
      if c2 ≠ WHITE then ocllWhile fuel (hcDoMovesStr hc "U" true)
      else some hc

/-- `solve_ocll`: up to four attempts over the corner-orientation bit
pattern read in the order `UBL UBR UFR UFL`. -/
def solveOcll (fuel : Nat) : Nat → HistoryCube → Option HistoryCube
  | 0, hc => some hc
  | n + 1, hc => do
    let (s1, hc) ← hcGetSticker hc "UBL"
    let (s2, hc) ← hcGetSticker hc "UBR"
    let (s3, hc) ← hcGetSticker hc "UFR"
    let (s4, hc) ← hcGetSticker hc "UFL"
    let co := [s1 == WHITE, s2 == WHITE, s3 == WHITE, s4 == WHITE]
    if co = [false, false, false, false] then do
      let hc ← ocllWhile fuel hc
      let (x1, hc) ← hcGetCorner hc "UFR"
      let (x2, hc) ← hcGetCorner hc "UBL"
      if infoGet x1 'F' = infoGet x2 'B' then some (hcDoMovesStr hc OCLL_H true)
      else some (hcDoMovesStr hc OCLL_Pi true)
    else if co = [false, false, false, true] then do
      let (y1, hc) ← hcGetSticker hc "FUR"
      if y1 = WHITE then some (hcDoMovesStr hc OCLL_S true)
      else some (hcDoMovesStr hc OCLL_AS true)
    else if co = [false, false, true, true] then do
      let (y2, hc) ← hcGetSticker hc "BRU"
      if y2 = WHITE then some (hcDoMovesStr hc OCLL_Headlights true)
      else some (hcDoMovesStr hc OCLL_Sidebars true)
    else if co = [false, true, false, true] then do
      let (y3, hc) ← hcGetSticker hc "RUF"
      let hc := if y3 ≠ WHITE then hcDoMovesStr hc "U2" true else hc
      some (hcDoMovesStr hc OCLL_Fish true)
    else solveOcll fuel n (hcDoMovesStr hc "U" true)

/-- `solve_cpll`'s algorithm constant (the trailing space is in the
source). -/
def cpllAlg : String := "R' U L' U2 R U' R' U2 R L "

/-- `solve_cpll`: a `for`/`else` over four attempts; when the counter runs
out the `else` branch applies `alg + " U " + alg`. -/
def solveCpll : Nat → HistoryCube → Option HistoryCube
  | 0, hc => some (hcDoMovesStr hc (cpllAlg ++ " U " ++ cpllAlg) true)
  | n + 1, hc => do
    let (a1, hc) ← hcGetSticker hc "FUR"
    let (a2, hc) ← hcGetSticker hc "FUL"
    if a1 = a2 then do
      let (b1, hc) ← hcGetSticker hc "BLU"
      let (b2, hc) ← hcGetSticker hc "BRU"
      if b1 = b2 then some hc
      else do
        let (d1, hc) ← hcGetSticker hc "FRU"
        let (d2, hc) ← hcGetSticker hc "FLU"
        if d1 = d2 then some (hcDoMovesStr hc cpllAlg true)
        else solveCpll n (hcDoMovesStr hc "U" true)
    else do
      let (d1, hc) ← hcGetSticker hc "FRU"
      let (d2, hc) ← hcGetSticker hc "FLU"
      if d1 = d2 then some (hcDoMovesStr hc cpllAlg true)
      else solveCpll n (hcDoMovesStr hc "U" true)

/-- `solve_epll`'s 11-move algorithm. -/
def epllAlg : String := "R U' R U R U R U' R' U' R2"

/-- The counting `for` loop of `solve_epll`: four times, compare the
`FU`/`FUR` stickers and rotate `U`. -/
def epllCount : Nat → HistoryCube → Nat → Option (Nat × HistoryCube)
  | 0, hc, acc => some (acc, hc)
  | n + 1, hc, acc => do
    let (s1, hc) ← hcGetSticker hc "FU"
    let (s2, hc) ← hcGetSticker hc "FUR"
    let acc := if s1 = s2 then acc + 1 else acc
    epllCount n (hcDoMovesStr hc "U" true) acc

/-- `while get_sticker("FU") != get_sticker("FUR"): do U`. -/
def epllWhileU : Nat → HistoryCube → Option HistoryCube
  | 0, _ => none
  | fuel + 1, hc => do
    let (s1, hc) ← hcGetSticker hc "FU"
    let (s2, hc) ← hcGetSticker hc "FUR"
    if s1 ≠ s2 then epllWhileU fuel (hcDoMovesStr hc "U" true) else some hc

/-- `while get_sticker("FU") != get_sticker("FUR"): do <epllAlg>`. -/
def epllWhileAlg : Nat → HistoryCube → Option HistoryCube
  | 0, _ => none
  | fuel + 1, hc => do
    let (s1, hc) ← hcGetSticker hc "FU"
    let (s2, hc) ← hcGetSticker hc "FUR"
    if s1 ≠ s2 then epllWhileAlg fuel (hcDoMovesStr hc epllAlg true) else some hc

/-- `while get_sticker("FU") != get_sticker("FR"): do U`. -/
def epllWhileAlign : Nat → HistoryCube → Option HistoryCube
  | 0, _ => none
  | fuel + 1, hc => do
    let (s1, hc) ← hcGetSticker hc "FU"
    let (s2, hc) ← hcGetSticker hc "FR"
    if s1 ≠ s2 then epllWhileAlign fuel (hcDoMovesStr hc "U" true) else some hc

/-- `solve_epll`. -/
def solveEpll (hc : HistoryCube) (fuel : Nat) : Option HistoryCube := do
  let (solvedEdges, hc) ← epllCount 4 hc 0
  let hc ←
    if solvedEdges ≠ 4 then do
      let hc := if solvedEdges = 0 then hcDoMovesStr hc epllAlg true else hc
      let hc ← epllWhileU fuel hc
      let hc := hcDoMovesStr hc "U2" true
      epllWhileAlg fuel hc
    else some hc
  epllWhileAlign fuel hc

/-- `generate_solution` minus its caller-visible wrapper: build the fresh
`HistoryCube` from (a deep copy of) the given faces, run the seven stages in
order, and post-process the recorded history with the cleaner.  The `print`
calls of the source only format the history and do not change any state. -/
def solutionMoves (fuel : Nat) (f : Faces Colour) : Option (List Move) := do
  let hc0 : HistoryCube := { faces := f, history := [] }
  let hc1 ← solveCross hc0
  let hc2 ← solveCorners hc1
  let hc3 ← solveMiddleEdges hc2
  let hc4 ← solveEoll 4 hc3
  let hc5 ← solveOcll fuel 4 hc4
  let hc6 ← solveCpll 4 hc5
  let hc7 ← solveEpll hc6 fuel
  some (scrambleToMoves (cleanMoves (movesToScramble hc7.history)))

/-- `generate_solution(cube)`.  The Python function reads only `cube.size`
and `cube.faces` (line 50) and never calls any mutating method on `cube`;
in the state-passing model its pair result therefore carries the caller's
cube back unchanged. -/
def generateSolution (fuel : Nat) (c : Cube) : Option (List Move × Cube) :=
  (solutionMoves fuel c.faces).map fun ms => (ms, c)

/-! ### Verification layer

Well-formedness of cube states, symbolic evaluation of the move engine on a
fully generic 3-by-3 cube, and the lemmas the claim theorems are built
from. -/

/-- A 3-by-3 grid: three rows of three cells. -/
def wfg (g : Grid α) : Bool := (g.length == 3) && g.all fun r => r.length == 3

/-- Well-formedness of a cube state: all six faces are 3-by-3 grids.  Every
cube the Python program ever builds (`Cube(3)` and everything reachable from
it) satisfies this. -/
def WF (f : Faces α) : Bool :=
  wfg f.U && wfg f.F && wfg f.L && wfg f.B && wfg f.R && wfg f.D

/-- The six physical face letters. -/
def faceChars : List Char := ['U', 'D', 'F', 'B', 'L', 'R']

/-- The six physical face letters plus the whole-cube rotation `y`. -/
def faceCharsY : List Char := ['U', 'D', 'F', 'B', 'L', 'R', 'y']

/-- The flat list of all stickers of a cube, faces enumerated in the fixed
order `U F L B R D`, each row-major. -/
def stickers (f : Faces α) : List α := (f.U ++ f.F ++ f.L ++ f.B ++ f.R ++ f.D).flatten

/-- A fully generic 3-by-3 cube built from 54 sticker variables, listed in
the `stickers` enumeration order. -/
abbrev mkF (v0 v1 v2 v3 v4 v5 v6 v7 v8 v9 v10 v11 v12 v13 v14 v15 v16 v17
    v18 v19 v20 v21 v22 v23 v24 v25 v26 v27 v28 v29 v30 v31 v32 v33 v34 v35
    v36 v37 v38 v39 v40 v41 v42 v43 v44 v45 v46 v47 v48 v49 v50 v51 v52 v53 : α) : Faces α :=
  { U := [[v0,v1,v2],[v3,v4,v5],[v6,v7,v8]],
    F := [[v9,v10,v11],[v12,v13,v14],[v15,v16,v17]],
    L := [[v18,v19,v20],[v21,v22,v23],[v24,v25,v26]],
    B := [[v27,v28,v29],[v30,v31,v32],[v33,v34,v35]],
    R := [[v36,v37,v38],[v39,v40,v41],[v42,v43,v44]],
    D := [[v45,v46,v47],[v48,v49,v50],[v51,v52,v53]] }

/-- `_adjacent_face_swap` dispatch, specialised to each concrete face. -/
theorem adjacentFaceSwap_U (f : Faces α) : adjacentFaceSwap f 'U' = adjSwapU f := rfl

theorem adjacentFaceSwap_D (f : Faces α) : adjacentFaceSwap f 'D' = adjSwapD f := rfl

theorem adjacentFaceSwap_F (f : Faces α) : adjacentFaceSwap f 'F' = adjSwapF f := rfl

theorem adjacentFaceSwap_R (f : Faces α) :
    adjacentFaceSwap f 'R' = yRotate (adjSwapF (yRotate f false false)) false true := by
  simp [adjacentFaceSwap]

theorem adjacentFaceSwap_L (f : Faces α) :
    adjacentFaceSwap f 'L' = yRotate (adjSwapF (yRotate f false true)) false false := by
  simp [adjacentFaceSwap]

theorem adjacentFaceSwap_B (f : Faces α) :
    adjacentFaceSwap f 'B' = yRotate (adjSwapF (yRotate f true false)) true false := by
  simp [adjacentFaceSwap]

/-- `_y_rotate` flag combinations, unfolded to iterated `yStep`s. -/
theorem yRotate_cw (f : Faces α) : yRotate f false false = yStep f := rfl

theorem yRotate_ccw (f : Faces α) : yRotate f false true = yStep (yStep (yStep f)) := rfl

theorem yRotate_double (f : Faces α) : yRotate f true false = yStep (yStep f) := rfl

/-- `_face_rotate("U")` on a fully generic 3-by-3 cube. -/
theorem rotU_mk {α : Type} (v0 v1 v2 v3 v4 v5 v6 v7 v8 v9 v10 v11 v12 v13 v14 v15 v16 v17 v18 v19 v20 v21 v22 v23 v24 v25 v26 v27 v28 v29 v30 v31 v32 v33 v34 v35 v36 v37 v38 v39 v40 v41 v42 v43 v44 v45 v46 v47 v48 v49 v50 v51 v52 v53 : α) :
    faceRotate (mkF v0 v1 v2 v3 v4 v5 v6 v7 v8 v9 v10 v11 v12 v13 v14 v15 v16 v17 v18 v19 v20 v21 v22 v23 v24 v25 v26 v27 v28 v29 v30 v31 v32 v33 v34 v35 v36 v37 v38 v39 v40 v41 v42 v43 v44 v45 v46 v47 v48 v49 v50 v51 v52 v53) 'U' =
    mkF v6 v3 v0 v7 v4 v1 v8 v5 v2 v9 v10 v11 v12 v13 v14 v15 v16 v17 v18 v19 v20 v21 v22 v23 v24 v25 v26 v27 v28 v29 v30 v31 v32 v33 v34 v35 v36 v37 v38 v39 v40 v41 v42 v43 v44 v45 v46 v47 v48 v49 v50 v51 v52 v53 := rfl

/-- `_face_rotate("F")` on a fully generic 3-by-3 cube. -/
theorem rotF_mk {α : Type} (v0 v1 v2 v3 v4 v5 v6 v7 v8 v9 v10 v11 v12 v13 v14 v15 v16 v17 v18 v19 v20 v21 v22 v23 v24 v25 v26 v27 v28 v29 v30 v31 v32 v33 v34 v35 v36 v37 v38 v39 v40 v41 v42 v43 v44 v45 v46 v47 v48 v49 v50 v51 v52 v53 : α) :
    faceRotate (mkF v0 v1 v2 v3 v4 v5 v6 v7 v8 v9 v10 v11 v12 v13 v14 v15 v16 v17 v18 v19 v20 v21 v22 v23 v24 v25 v26 v27 v28 v29 v30 v31 v32 v33 v34 v35 v36 v37 v38 v39 v40 v41 v42 v43 v44 v45 v46 v47 v48 v49 v50 v51 v52 v53) 'F' =
    mkF v0 v1 v2 v3 v4 v5 v6 v7 v8 v15 v12 v9 v16 v13 v10 v17 v14 v11 v18 v19 v20 v21 v22 v23 v24 v25 v26 v27 v28 v29 v30 v31 v32 v33 v34 v35 v36 v37 v38 v39 v40 v41 v42 v43 v44 v45 v46 v47 v48 v49 v50 v51 v52 v53 := rfl

/-- `_face_rotate("L")` on a fully generic 3-by-3 cube. -/
theorem rotL_mk {α : Type} (v0 v1 v2 v3 v4 v5 v6 v7 v8 v9 v10 v11 v12 v13 v14 v15 v16 v17 v18 v19 v20 v21 v22 v23 v24 v25 v26 v27 v28 v29 v30 v31 v32 v33 v34 v35 v36 v37 v38 v39 v40 v41 v42 v43 v44 v45 v46 v47 v48 v49 v50 v51 v52 v53 : α) :
    faceRotate (mkF v0 v1 v2 v3 v4 v5 v6 v7 v8 v9 v10 v11 v12 v13 v14 v15 v16 v17 v18 v19 v20 v21 v22 v23 v24 v25 v26 v27 v28 v29 v30 v31 v32 v33 v34 v35 v36 v37 v38 v39 v40 v41 v42 v43 v44 v45 v46 v47 v48 v49 v50 v51 v52 v53) 'L' =
    mkF v0 v1 v2 v3 v4 v5 v6 v7 v8 v9 v10 v11 v12 v13 v14 v15 v16 v17 v24 v21 v18 v25 v22 v19 v26 v23 v20 v27 v28 v29 v30 v31 v32 v33 v34 v35 v36 v37 v38 v39 v40 v41 v42 v43 v44 v45 v46 v47 v48 v49 v50 v51 v52 v53 := rfl

/-- `_face_rotate("B")` on a fully generic 3-by-3 cube. -/
theorem rotB_mk {α : Type} (v0 v1 v2 v3 v4 v5 v6 v7 v8 v9 v10 v11 v12 v13 v14 v15 v16 v17 v18 v19 v20 v21 v22 v23 v24 v25 v26 v27 v28 v29 v30 v31 v32 v33 v34 v35 v36 v37 v38 v39 v40 v41 v42 v43 v44 v45 v46 v47 v48 v49 v50 v51 v52 v53 : α) :
    faceRotate (mkF v0 v1 v2 v3 v4 v5 v6 v7 v8 v9 v10 v11 v12 v13 v14 v15 v16 v17 v18 v19 v20 v21 v22 v23 v24 v25 v26 v27 v28 v29 v30 v31 v32 v33 v34 v35 v36 v37 v38 v39 v40 v41 v42 v43 v44 v45 v46 v47 v48 v49 v50 v51 v52 v53) 'B' =
    mkF v0 v1 v2 v3 v4 v5 v6 v7 v8 v9 v10 v11 v12 v13 v14 v15 v16 v17 v18 v19 v20 v21 v22 v23 v24 v25 v26 v33 v30 v27 v34 v31 v28 v35 v32 v29 v36 v37 v38 v39 v40 v41 v42 v43 v44 v45 v46 v47 v48 v49 v50 v51 v52 v53 := rfl

/-- `_face_rotate("R")` on a fully generic 3-by-3 cube. -/
theorem rotR_mk {α : Type} (v0 v1 v2 v3 v4 v5 v6 v7 v8 v9 v10 v11 v12 v13 v14 v15 v16 v17 v18 v19 v20 v21 v22 v23 v24 v25 v26 v27 v28 v29 v30 v31 v32 v33 v34 v35 v36 v37 v38 v39 v40 v41 v42 v43 v44 v45 v46 v47 v48 v49 v50 v51 v52 v53 : α) :
    faceRotate (mkF v0 v1 v2 v3 v4 v5 v6 v7 v8 v9 v10 v11 v12 v13 v14 v15 v16 v17 v18 v19 v20 v21 v22 v23 v24 v25 v26 v27 v28 v29 v30 v31 v32 v33 v34 v35 v36 v37 v38 v39 v40 v41 v42 v43 v44 v45 v46 v47 v48 v49 v50 v51 v52 v53) 'R' =
    mkF v0 v1 v2 v3 v4 v5 v6 v7 v8 v9 v10 v11 v12 v13 v14 v15 v16 v17 v18 v19 v20 v21 v22 v23 v24 v25 v26 v27 v28 v29 v30 v31 v32 v33 v34 v35 v42 v39 v36 v43 v40 v37 v44 v41 v38 v45 v46 v47 v48 v49 v50 v51 v52 v53 := rfl

/-- `_face_rotate("D")` on a fully generic 3-by-3 cube. -/
theorem rotD_mk {α : Type} (v0 v1 v2 v3 v4 v5 v6 v7 v8 v9 v10 v11 v12 v13 v14 v15 v16 v17 v18 v19 v20 v21 v22 v23 v24 v25 v26 v27 v28 v29 v30 v31 v32 v33 v34 v35 v36 v37 v38 v39 v40 v41 v42 v43 v44 v45 v46 v47 v48 v49 v50 v51 v52 v53 : α) :
    faceRotate (mkF v0 v1 v2 v3 v4 v5 v6 v7 v8 v9 v10 v11 v12 v13 v14 v15 v16 v17 v18 v19 v20 v21 v22 v23 v24 v25 v26 v27 v28 v29 v30 v31 v32 v33 v34 v35 v36 v37 v38 v39 v40 v41 v42 v43 v44 v45 v46 v47 v48 v49 v50 v51 v52 v53) 'D' =
    mkF v0 v1 v2 v3 v4 v5 v6 v7 v8 v9 v10 v11 v12 v13 v14 v15 v16 v17 v18 v19 v20 v21 v22 v23 v24 v25 v26 v27 v28 v29 v30 v31 v32 v33 v34 v35 v36 v37 v38 v39 v40 v41 v42 v43 v44 v51 v48 v45 v52 v49 v46 v53 v50 v47 := rfl

/-- `_adjacent_face_swap("U")` on a fully generic 3-by-3 cube. -/
theorem swapU_mk {α : Type} (v0 v1 v2 v3 v4 v5 v6 v7 v8 v9 v10 v11 v12 v13 v14 v15 v16 v17 v18 v19 v20 v21 v22 v23 v24 v25 v26 v27 v28 v29 v30 v31 v32 v33 v34 v35 v36 v37 v38 v39 v40 v41 v42 v43 v44 v45 v46 v47 v48 v49 v50 v51 v52 v53 : α) :
    adjSwapU (mkF v0 v1 v2 v3 v4 v5 v6 v7 v8 v9 v10 v11 v12 v13 v14 v15 v16 v17 v18 v19 v20 v21 v22 v23 v24 v25 v26 v27 v28 v29 v30 v31 v32 v33 v34 v35 v36 v37 v38 v39 v40 v41 v42 v43 v44 v45 v46 v47 v48 v49 v50 v51 v52 v53) =
    mkF v0 v1 v2 v3 v4 v5 v6 v7 v8 v36 v37 v38 v12 v13 v14 v15 v16 v17 v9 v10 v11 v21 v22 v23 v24 v25 v26 v18 v19 v20 v30 v31 v32 v33 v34 v35 v27 v28 v29 v39 v40 v41 v42 v43 v44 v45 v46 v47 v48 v49 v50 v51 v52 v53 := rfl

/-- `_adjacent_face_swap("D")` on a fully generic 3-by-3 cube. -/
theorem swapD_mk {α : Type} (v0 v1 v2 v3 v4 v5 v6 v7 v8 v9 v10 v11 v12 v13 v14 v15 v16 v17 v18 v19 v20 v21 v22 v23 v24 v25 v26 v27 v28 v29 v30 v31 v32 v33 v34 v35 v36 v37 v38 v39 v40 v41 v42 v43 v44 v45 v46 v47 v48 v49 v50 v51 v52 v53 : α) :
    adjSwapD (mkF v0 v1 v2 v3 v4 v5 v6 v7 v8 v9 v10 v11 v12 v13 v14 v15 v16 v17 v18 v19 v20 v21 v22 v23 v24 v25 v26 v27 v28 v29 v30 v31 v32 v33 v34 v35 v36 v37 v38 v39 v40 v41 v42 v43 v44 v45 v46 v47 v48 v49 v50 v51 v52 v53) =
    mkF v0 v1 v2 v3 v4 v5 v6 v7 v8 v9 v10 v11 v12 v13 v14 v24 v25 v26 v18 v19 v20 v21 v22 v23 v33 v34 v35 v27 v28 v29 v30 v31 v32 v42 v43 v44 v36 v37 v38 v39 v40 v41 v15 v16 v17 v45 v46 v47 v48 v49 v50 v51 v52 v53 := rfl

/-- `_adjacent_face_swap("F")` on a fully generic 3-by-3 cube. -/
theorem swapF_mk {α : Type} (v0 v1 v2 v3 v4 v5 v6 v7 v8 v9 v10 v11 v12 v13 v14 v15 v16 v17 v18 v19 v20 v21 v22 v23 v24 v25 v26 v27 v28 v29 v30 v31 v32 v33 v34 v35 v36 v37 v38 v39 v40 v41 v42 v43 v44 v45 v46 v47 v48 v49 v50 v51 v52 v53 : α) :
    adjSwapF (mkF v0 v1 v2 v3 v4 v5 v6 v7 v8 v9 v10 v11 v12 v13 v14 v15 v16 v17 v18 v19 v20 v21 v22 v23 v24 v25 v26 v27 v28 v29 v30 v31 v32 v33 v34 v35 v36 v37 v38 v39 v40 v41 v42 v43 v44 v45 v46 v47 v48 v49 v50 v51 v52 v53) =
    mkF v0 v1 v2 v3 v4 v5 v26 v23 v20 v9 v10 v11 v12 v13 v14 v15 v16 v17 v18 v19 v45 v21 v22 v46 v24 v25 v47 v27 v28 v29 v30 v31 v32 v33 v34 v35 v6 v37 v38 v7 v40 v41 v8 v43 v44 v42 v39 v36 v48 v49 v50 v51 v52 v53 := rfl

/-- one `_y_rotate` iteration on a fully generic 3-by-3 cube. -/
theorem ystep_mk {α : Type} (v0 v1 v2 v3 v4 v5 v6 v7 v8 v9 v10 v11 v12 v13 v14 v15 v16 v17 v18 v19 v20 v21 v22 v23 v24 v25 v26 v27 v28 v29 v30 v31 v32 v33 v34 v35 v36 v37 v38 v39 v40 v41 v42 v43 v44 v45 v46 v47 v48 v49 v50 v51 v52 v53 : α) :
    yStep (mkF v0 v1 v2 v3 v4 v5 v6 v7 v8 v9 v10 v11 v12 v13 v14 v15 v16 v17 v18 v19 v20 v21 v22 v23 v24 v25 v26 v27 v28 v29 v30 v31 v32 v33 v34 v35 v36 v37 v38 v39 v40 v41 v42 v43 v44 v45 v46 v47 v48 v49 v50 v51 v52 v53) =
    mkF v6 v3 v0 v7 v4 v1 v8 v5 v2 v36 v37 v38 v39 v40 v41 v42 v43 v44 v9 v10 v11 v12 v13 v14 v15 v16 v17 v18 v19 v20 v21 v22 v23 v24 v25 v26 v27 v28 v29 v30 v31 v32 v33 v34 v35 v47 v50 v53 v46 v49 v52 v45 v48 v51 := by
  simp only [yStep, rotU_mk, rotD_mk]

/-- `turn` for each concrete face on a fully generic 3-by-3 cube: the
composite of the primitive rewrite lemmas above. -/
theorem turnU_mk {α : Type} (v0 v1 v2 v3 v4 v5 v6 v7 v8 v9 v10 v11 v12 v13 v14 v15 v16 v17 v18 v19 v20 v21 v22 v23 v24 v25 v26 v27 v28 v29 v30 v31 v32 v33 v34 v35 v36 v37 v38 v39 v40 v41 v42 v43 v44 v45 v46 v47 v48 v49 v50 v51 v52 v53 : α) :
    turn (mkF v0 v1 v2 v3 v4 v5 v6 v7 v8 v9 v10 v11 v12 v13 v14 v15 v16 v17 v18 v19 v20 v21 v22 v23 v24 v25 v26 v27 v28 v29 v30 v31 v32 v33 v34 v35 v36 v37 v38 v39 v40 v41 v42 v43 v44 v45 v46 v47 v48 v49 v50 v51 v52 v53) 'U' =
    mkF v6 v3 v0 v7 v4 v1 v8 v5 v2 v36 v37 v38 v12 v13 v14 v15 v16 v17 v9 v10 v11 v21 v22 v23 v24 v25 v26 v18 v19 v20 v30 v31 v32 v33 v34 v35 v27 v28 v29 v39 v40 v41 v42 v43 v44 v45 v46 v47 v48 v49 v50 v51 v52 v53 := by
  simp only [turn, adjacentFaceSwap_U, rotU_mk, swapU_mk]

/-- `turn` at face `D` on a fully generic 3-by-3 cube. -/
theorem turnD_mk {α : Type} (v0 v1 v2 v3 v4 v5 v6 v7 v8 v9 v10 v11 v12 v13 v14 v15 v16 v17 v18 v19 v20 v21 v22 v23 v24 v25 v26 v27 v28 v29 v30 v31 v32 v33 v34 v35 v36 v37 v38 v39 v40 v41 v42 v43 v44 v45 v46 v47 v48 v49 v50 v51 v52 v53 : α) :
    turn (mkF v0 v1 v2 v3 v4 v5 v6 v7 v8 v9 v10 v11 v12 v13 v14 v15 v16 v17 v18 v19 v20 v21 v22 v23 v24 v25 v26 v27 v28 v29 v30 v31 v32 v33 v34 v35 v36 v37 v38 v39 v40 v41 v42 v43 v44 v45 v46 v47 v48 v49 v50 v51 v52 v53) 'D' =
    mkF v0 v1 v2 v3 v4 v5 v6 v7 v8 v9 v10 v11 v12 v13 v14 v24 v25 v26 v18 v19 v20 v21 v22 v23 v33 v34 v35 v27 v28 v29 v30 v31 v32 v42 v43 v44 v36 v37 v38 v39 v40 v41 v15 v16 v17 v51 v48 v45 v52 v49 v46 v53 v50 v47 := by
  simp only [turn, adjacentFaceSwap_D, rotD_mk, swapD_mk]

/-- `turn` at face `F` on a fully generic 3-by-3 cube. -/
theorem turnF_mk {α : Type} (v0 v1 v2 v3 v4 v5 v6 v7 v8 v9 v10 v11 v12 v13 v14 v15 v16 v17 v18 v19 v20 v21 v22 v23 v24 v25 v26 v27 v28 v29 v30 v31 v32 v33 v34 v35 v36 v37 v38 v39 v40 v41 v42 v43 v44 v45 v46 v47 v48 v49 v50 v51 v52 v53 : α) :
    turn (mkF v0 v1 v2 v3 v4 v5 v6 v7 v8 v9 v10 v11 v12 v13 v14 v15 v16 v17 v18 v19 v20 v21 v22 v23 v24 v25 v26 v27 v28 v29 v30 v31 v32 v33 v34 v35 v36 v37 v38 v39 v40 v41 v42 v43 v44 v45 v46 v47 v48 v49 v50 v51 v52 v53) 'F' =
    mkF v0 v1 v2 v3 v4 v5 v26 v23 v20 v15 v12 v9 v16 v13 v10 v17 v14 v11 v18 v19 v45 v21 v22 v46 v24 v25 v47 v27 v28 v29 v30 v31 v32 v33 v34 v35 v6 v37 v38 v7 v40 v41 v8 v43 v44 v42 v39 v36 v48 v49 v50 v51 v52 v53 := by
  simp only [turn, adjacentFaceSwap_F, rotF_mk, swapF_mk]

/-- `turn` at face `R` on a fully generic 3-by-3 cube (derived in the
source by conjugating the `F` case with `y` rotations). -/
theorem turnR_mk {α : Type} (v0 v1 v2 v3 v4 v5 v6 v7 v8 v9 v10 v11 v12 v13 v14 v15 v16 v17 v18 v19 v20 v21 v22 v23 v24 v25 v26 v27 v28 v29 v30 v31 v32 v33 v34 v35 v36 v37 v38 v39 v40 v41 v42 v43 v44 v45 v46 v47 v48 v49 v50 v51 v52 v53 : α) :
    turn (mkF v0 v1 v2 v3 v4 v5 v6 v7 v8 v9 v10 v11 v12 v13 v14 v15 v16 v17 v18 v19 v20 v21 v22 v23 v24 v25 v26 v27 v28 v29 v30 v31 v32 v33 v34 v35 v36 v37 v38 v39 v40 v41 v42 v43 v44 v45 v46 v47 v48 v49 v50 v51 v52 v53) 'R' =
    mkF v0 v1 v11 v3 v4 v14 v6 v7 v17 v9 v10 v47 v12 v13 v50 v15 v16 v53 v18 v19 v20 v21 v22 v23 v24 v25 v26 v8 v28 v29 v5 v31 v32 v2 v34 v35 v42 v39 v36 v43 v40 v37 v44 v41 v38 v45 v46 v33 v48 v49 v30 v51 v52 v27 := by
  simp only [turn, adjacentFaceSwap_R, rotR_mk, yRotate_cw, yRotate_ccw, yRotate_double,
    ystep_mk, swapF_mk]

/-- `turn` at face `L` on a fully generic 3-by-3 cube (derived in the
source by conjugating the `F` case with `y` rotations). -/
theorem turnL_mk {α : Type} (v0 v1 v2 v3 v4 v5 v6 v7 v8 v9 v10 v11 v12 v13 v14 v15 v16 v17 v18 v19 v20 v21 v22 v23 v24 v25 v26 v27 v28 v29 v30 v31 v32 v33 v34 v35 v36 v37 v38 v39 v40 v41 v42 v43 v44 v45 v46 v47 v48 v49 v50 v51 v52 v53 : α) :
    turn (mkF v0 v1 v2 v3 v4 v5 v6 v7 v8 v9 v10 v11 v12 v13 v14 v15 v16 v17 v18 v19 v20 v21 v22 v23 v24 v25 v26 v27 v28 v29 v30 v31 v32 v33 v34 v35 v36 v37 v38 v39 v40 v41 v42 v43 v44 v45 v46 v47 v48 v49 v50 v51 v52 v53) 'L' =
    mkF v35 v1 v2 v32 v4 v5 v29 v7 v8 v0 v10 v11 v3 v13 v14 v6 v16 v17 v24 v21 v18 v25 v22 v19 v26 v23 v20 v27 v28 v51 v30 v31 v48 v33 v34 v45 v36 v37 v38 v39 v40 v41 v42 v43 v44 v9 v46 v47 v12 v49 v50 v15 v52 v53 := by
  simp only [turn, adjacentFaceSwap_L, rotL_mk, yRotate_cw, yRotate_ccw, yRotate_double,
    ystep_mk, swapF_mk]

/-- `turn` at face `B` on a fully generic 3-by-3 cube (derived in the
source by conjugating the `F` case with `y` rotations). -/
theorem turnB_mk {α : Type} (v0 v1 v2 v3 v4 v5 v6 v7 v8 v9 v10 v11 v12 v13 v14 v15 v16 v17 v18 v19 v20 v21 v22 v23 v24 v25 v26 v27 v28 v29 v30 v31 v32 v33 v34 v35 v36 v37 v38 v39 v40 v41 v42 v43 v44 v45 v46 v47 v48 v49 v50 v51 v52 v53 : α) :
    turn (mkF v0 v1 v2 v3 v4 v5 v6 v7 v8 v9 v10 v11 v12 v13 v14 v15 v16 v17 v18 v19 v20 v21 v22 v23 v24 v25 v26 v27 v28 v29 v30 v31 v32 v33 v34 v35 v36 v37 v38 v39 v40 v41 v42 v43 v44 v45 v46 v47 v48 v49 v50 v51 v52 v53) 'B' =
    mkF v38 v41 v44 v3 v4 v5 v6 v7 v8 v9 v10 v11 v12 v13 v14 v15 v16 v17 v2 v19 v20 v1 v22 v23 v0 v25 v26 v33 v30 v27 v34 v31 v28 v35 v32 v29 v36 v37 v53 v39 v40 v52 v42 v43 v51 v45 v46 v47 v48 v49 v50 v18 v21 v24 := by
  simp only [turn, adjacentFaceSwap_B, rotB_mk, yRotate_cw, yRotate_ccw, yRotate_double,
    ystep_mk, swapF_mk]

/-- The 54 stickers of a fully generic 3-by-3 cube, in the fixed
`U F L B R D` row-major enumeration order of `stickers`. -/
theorem stickers_mk {α : Type} (v0 v1 v2 v3 v4 v5 v6 v7 v8 v9 v10 v11 v12 v13 v14 v15 v16 v17 v18 v19 v20 v21 v22 v23 v24 v25 v26 v27 v28 v29 v30 v31 v32 v33 v34 v35 v36 v37 v38 v39 v40 v41 v42 v43 v44 v45 v46 v47 v48 v49 v50 v51 v52 v53 : α) :
    stickers (mkF v0 v1 v2 v3 v4 v5 v6 v7 v8 v9 v10 v11 v12 v13 v14 v15 v16 v17 v18 v19 v20 v21 v22 v23 v24 v25 v26 v27 v28 v29 v30 v31 v32 v33 v34 v35 v36 v37 v38 v39 v40 v41 v42 v43 v44 v45 v46 v47 v48 v49 v50 v51 v52 v53) = [v0, v1, v2, v3, v4, v5, v6, v7, v8, v9, v10, v11, v12, v13, v14, v15, v16, v17, v18, v19, v20, v21, v22, v23, v24, v25, v26, v27, v28, v29, v30, v31, v32, v33, v34, v35, v36, v37, v38, v39, v40, v41, v42, v43, v44, v45, v46, v47, v48, v49, v50, v51, v52, v53] := rfl

/-- A fully generic 3-by-3 cube is well-formed. -/
theorem wf_mk {α : Type} (v0 v1 v2 v3 v4 v5 v6 v7 v8 v9 v10 v11 v12 v13 v14 v15 v16 v17 v18 v19 v20 v21 v22 v23 v24 v25 v26 v27 v28 v29 v30 v31 v32 v33 v34 v35 v36 v37 v38 v39 v40 v41 v42 v43 v44 v45 v46 v47 v48 v49 v50 v51 v52 v53 : α) : WF (mkF v0 v1 v2 v3 v4 v5 v6 v7 v8 v9 v10 v11 v12 v13 v14 v15 v16 v17 v18 v19 v20 v21 v22 v23 v24 v25 v26 v27 v28 v29 v30 v31 v32 v33 v34 v35 v36 v37 v38 v39 v40 v41 v42 v43 v44 v45 v46 v47 v48 v49 v50 v51 v52 v53) = true := rfl

/-- The position permutation performed by a quarter turn of face `U`:
entry `k` of the new sticker list is entry `permIdxU[k]` of the old one. -/
def permIdxU : List Nat := [6, 3, 0, 7, 4, 1, 8, 5, 2, 36, 37, 38, 12, 13, 14, 15, 16, 17, 9, 10, 11, 21, 22, 23, 24, 25, 26, 18, 19, 20, 30, 31, 32, 33, 34, 35, 27, 28, 29, 39, 40, 41, 42, 43, 44, 45, 46, 47, 48, 49, 50, 51, 52, 53]

theorem permIdxU_perm : List.Perm permIdxU (List.range 54) := by decide

/-- The position permutation performed by a quarter turn of face `D`:
entry `k` of the new sticker list is entry `permIdxD[k]` of the old one. -/
def permIdxD : List Nat := [0, 1, 2, 3, 4, 5, 6, 7, 8, 9, 10, 11, 12, 13, 14, 24, 25, 26, 18, 19, 20, 21, 22, 23, 33, 34, 35, 27, 28, 29, 30, 31, 32, 42, 43, 44, 36, 37, 38, 39, 40, 41, 15, 16, 17, 51, 48, 45, 52, 49, 46, 53, 50, 47]

theorem permIdxD_perm : List.Perm permIdxD (List.range 54) := by decide

/-- The position permutation performed by a quarter turn of face `F`:
entry `k` of the new sticker list is entry `permIdxF[k]` of the old one. -/
def permIdxF : List Nat := [0, 1, 2, 3, 4, 5, 26, 23, 20, 15, 12, 9, 16, 13, 10, 17, 14, 11, 18, 19, 45, 21, 22, 46, 24, 25, 47, 27, 28, 29, 30, 31, 32, 33, 34, 35, 6, 37, 38, 7, 40, 41, 8, 43, 44, 42, 39, 36, 48, 49, 50, 51, 52, 53]

theorem permIdxF_perm : List.Perm permIdxF (List.range 54) := by decide

/-- The position permutation performed by a quarter turn of face `B`:
entry `k` of the new sticker list is entry `permIdxB[k]` of the old one. -/
def permIdxB : List Nat := [38, 41, 44, 3, 4, 5, 6, 7, 8, 9, 10, 11, 12, 13, 14, 15, 16, 17, 2, 19, 20, 1, 22, 23, 0, 25, 26, 33, 30, 27, 34, 31, 28, 35, 32, 29, 36, 37, 53, 39, 40, 52, 42, 43, 51, 45, 46, 47, 48, 49, 50, 18, 21, 24]

theorem permIdxB_perm : List.Perm permIdxB (List.range 54) := by decide

/-- The position permutation performed by a quarter turn of face `L`:
entry `k` of the new sticker list is entry `permIdxL[k]` of the old one. -/
def permIdxL : List Nat := [35, 1, 2, 32, 4, 5, 29, 7, 8, 0, 10, 11, 3, 13, 14, 6, 16, 17, 24, 21, 18, 25, 22, 19, 26, 23, 20, 27, 28, 51, 30, 31, 48, 33, 34, 45, 36, 37, 38, 39, 40, 41, 42, 43, 44, 9, 46, 47, 12, 49, 50, 15, 52, 53]

theorem permIdxL_perm : List.Perm permIdxL (List.range 54) := by decide

/-- The position permutation performed by a quarter turn of face `R`:
entry `k` of the new sticker list is entry `permIdxR[k]` of the old one. -/
def permIdxR : List Nat := [0, 1, 11, 3, 4, 14, 6, 7, 17, 9, 10, 47, 12, 13, 50, 15, 16, 53, 18, 19, 20, 21, 22, 23, 24, 25, 26, 8, 28, 29, 5, 31, 32, 2, 34, 35, 42, 39, 36, 43, 40, 37, 44, 41, 38, 45, 46, 33, 48, 49, 30, 51, 52, 27]

theorem permIdxR_perm : List.Perm permIdxR (List.range 54) := by decide

/-- The position permutation performed by `_y_rotate`:
entry `k` of the new sticker list is entry `permIdxY[k]` of the old one. -/
def permIdxY : List Nat := [6, 3, 0, 7, 4, 1, 8, 5, 2, 36, 37, 38, 39, 40, 41, 42, 43, 44, 9, 10, 11, 12, 13, 14, 15, 16, 17, 18, 19, 20, 21, 22, 23, 24, 25, 26, 27, 28, 29, 30, 31, 32, 33, 34, 35, 47, 50, 53, 46, 49, 52, 45, 48, 51]

theorem permIdxY_perm : List.Perm permIdxY (List.range 54) := by decide

/-- A quarter turn of `U` permutes the 54 stickers: every colour count is
preserved on a fully generic 3-by-3 cube. -/
theorem countTurnU_mk {α : Type} [DecidableEq α] (x : α) (v0 v1 v2 v3 v4 v5 v6 v7 v8 v9 v10 v11 v12 v13 v14 v15 v16 v17 v18 v19 v20 v21 v22 v23 v24 v25 v26 v27 v28 v29 v30 v31 v32 v33 v34 v35 v36 v37 v38 v39 v40 v41 v42 v43 v44 v45 v46 v47 v48 v49 v50 v51 v52 v53 : α) :
    (stickers (turn (mkF v0 v1 v2 v3 v4 v5 v6 v7 v8 v9 v10 v11 v12 v13 v14 v15 v16 v17 v18 v19 v20 v21 v22 v23 v24 v25 v26 v27 v28 v29 v30 v31 v32 v33 v34 v35 v36 v37 v38 v39 v40 v41 v42 v43 v44 v45 v46 v47 v48 v49 v50 v51 v52 v53) 'U')).count x = (stickers (mkF v0 v1 v2 v3 v4 v5 v6 v7 v8 v9 v10 v11 v12 v13 v14 v15 v16 v17 v18 v19 v20 v21 v22 v23 v24 v25 v26 v27 v28 v29 v30 v31 v32 v33 v34 v35 v36 v37 v38 v39 v40 v41 v42 v43 v44 v45 v46 v47 v48 v49 v50 v51 v52 v53)).count x := by
  rw [turnU_mk, stickers_mk, stickers_mk]
  calc ([v6, v3, v0, v7, v4, v1, v8, v5, v2, v36, v37, v38, v12, v13, v14, v15, v16, v17, v9, v10, v11, v21, v22, v23, v24, v25, v26, v18, v19, v20, v30, v31, v32, v33, v34, v35, v27, v28, v29, v39, v40, v41, v42, v43, v44, v45, v46, v47, v48, v49, v50, v51, v52, v53] : List α).count x
      = (permIdxU.map fun i => ([v0, v1, v2, v3, v4, v5, v6, v7, v8, v9, v10, v11, v12, v13, v14, v15, v16, v17, v18, v19, v20, v21, v22, v23, v24, v25, v26, v27, v28, v29, v30, v31, v32, v33, v34, v35, v36, v37, v38, v39, v40, v41, v42, v43, v44, v45, v46, v47, v48, v49, v50, v51, v52, v53] : List α).getD i x).count x := rfl
    _ = ((List.range 54).map fun i => ([v0, v1, v2, v3, v4, v5, v6, v7, v8, v9, v10, v11, v12, v13, v14, v15, v16, v17, v18, v19, v20, v21, v22, v23, v24, v25, v26, v27, v28, v29, v30, v31, v32, v33, v34, v35, v36, v37, v38, v39, v40, v41, v42, v43, v44, v45, v46, v47, v48, v49, v50, v51, v52, v53] : List α).getD i x).count x :=
        (permIdxU_perm.map _).count_eq x
    _ = ([v0, v1, v2, v3, v4, v5, v6, v7, v8, v9, v10, v11, v12, v13, v14, v15, v16, v17, v18, v19, v20, v21, v22, v23, v24, v25, v26, v27, v28, v29, v30, v31, v32, v33, v34, v35, v36, v37, v38, v39, v40, v41, v42, v43, v44, v45, v46, v47, v48, v49, v50, v51, v52, v53] : List α).count x := rfl

/-- A quarter turn of `D` permutes the 54 stickers: every colour count is
preserved on a fully generic 3-by-3 cube. -/
theorem countTurnD_mk {α : Type} [DecidableEq α] (x : α) (v0 v1 v2 v3 v4 v5 v6 v7 v8 v9 v10 v11 v12 v13 v14 v15 v16 v17 v18 v19 v20 v21 v22 v23 v24 v25 v26 v27 v28 v29 v30 v31 v32 v33 v34 v35 v36 v37 v38 v39 v40 v41 v42 v43 v44 v45 v46 v47 v48 v49 v50 v51 v52 v53 : α) :
    (stickers (turn (mkF v0 v1 v2 v3 v4 v5 v6 v7 v8 v9 v10 v11 v12 v13 v14 v15 v16 v17 v18 v19 v20 v21 v22 v23 v24 v25 v26 v27 v28 v29 v30 v31 v32 v33 v34 v35 v36 v37 v38 v39 v40 v41 v42 v43 v44 v45 v46 v47 v48 v49 v50 v51 v52 v53) 'D')).count x = (stickers (mkF v0 v1 v2 v3 v4 v5 v6 v7 v8 v9 v10 v11 v12 v13 v14 v15 v16 v17 v18 v19 v20 v21 v22 v23 v24 v25 v26 v27 v28 v29 v30 v31 v32 v33 v34 v35 v36 v37 v38 v39 v40 v41 v42 v43 v44 v45 v46 v47 v48 v49 v50 v51 v52 v53)).count x := by
  rw [turnD_mk, stickers_mk, stickers_mk]
  calc ([v0, v1, v2, v3, v4, v5, v6, v7, v8, v9, v10, v11, v12, v13, v14, v24, v25, v26, v18, v19, v20, v21, v22, v23, v33, v34, v35, v27, v28, v29, v30, v31, v32, v42, v43, v44, v36, v37, v38, v39, v40, v41, v15, v16, v17, v51, v48, v45, v52, v49, v46, v53, v50, v47] : List α).count x
      = (permIdxD.map fun i => ([v0, v1, v2, v3, v4, v5, v6, v7, v8, v9, v10, v11, v12, v13, v14, v15, v16, v17, v18, v19, v20, v21, v22, v23, v24, v25, v26, v27, v28, v29, v30, v31, v32, v33, v34, v35, v36, v37, v38, v39, v40, v41, v42, v43, v44, v45, v46, v47, v48, v49, v50, v51, v52, v53] : List α).getD i x).count x := rfl
    _ = ((List.range 54).map fun i => ([v0, v1, v2, v3, v4, v5, v6, v7, v8, v9, v10, v11, v12, v13, v14, v15, v16, v17, v18, v19, v20, v21, v22, v23, v24, v25, v26, v27, v28, v29, v30, v31, v32, v33, v34, v35, v36, v37, v38, v39, v40, v41, v42, v43, v44, v45, v46, v47, v48, v49, v50, v51, v52, v53] : List α).getD i x).count x :=
        (permIdxD_perm.map _).count_eq x
    _ = ([v0, v1, v2, v3, v4, v5, v6, v7, v8, v9, v10, v11, v12, v13, v14, v15, v16, v17, v18, v19, v20, v21, v22, v23, v24, v25, v26, v27, v28, v29, v30, v31, v32, v33, v34, v35, v36, v37, v38, v39, v40, v41, v42, v43, v44, v45, v46, v47, v48, v49, v50, v51, v52, v53] : List α).count x := rfl

/-- A quarter turn of `F` permutes the 54 stickers: every colour count is
preserved on a fully generic 3-by-3 cube. -/
theorem countTurnF_mk {α : Type} [DecidableEq α] (x : α) (v0 v1 v2 v3 v4 v5 v6 v7 v8 v9 v10 v11 v12 v13 v14 v15 v16 v17 v18 v19 v20 v21 v22 v23 v24 v25 v26 v27 v28 v29 v30 v31 v32 v33 v34 v35 v36 v37 v38 v39 v40 v41 v42 v43 v44 v45 v46 v47 v48 v49 v50 v51 v52 v53 : α) :
    (stickers (turn (mkF v0 v1 v2 v3 v4 v5 v6 v7 v8 v9 v10 v11 v12 v13 v14 v15 v16 v17 v18 v19 v20 v21 v22 v23 v24 v25 v26 v27 v28 v29 v30 v31 v32 v33 v34 v35 v36 v37 v38 v39 v40 v41 v42 v43 v44 v45 v46 v47 v48 v49 v50 v51 v52 v53) 'F')).count x = (stickers (mkF v0 v1 v2 v3 v4 v5 v6 v7 v8 v9 v10 v11 v12 v13 v14 v15 v16 v17 v18 v19 v20 v21 v22 v23 v24 v25 v26 v27 v28 v29 v30 v31 v32 v33 v34 v35 v36 v37 v38 v39 v40 v41 v42 v43 v44 v45 v46 v47 v48 v49 v50 v51 v52 v53)).count x := by
  rw [turnF_mk, stickers_mk, stickers_mk]
  calc ([v0, v1, v2, v3, v4, v5, v26, v23, v20, v15, v12, v9, v16, v13, v10, v17, v14, v11, v18, v19, v45, v21, v22, v46, v24, v25, v47, v27, v28, v29, v30, v31, v32, v33, v34, v35, v6, v37, v38, v7, v40, v41, v8, v43, v44, v42, v39, v36, v48, v49, v50, v51, v52, v53] : List α).count x
      = (permIdxF.map fun i => ([v0, v1, v2, v3, v4, v5, v6, v7, v8, v9, v10, v11, v12, v13, v14, v15, v16, v17, v18, v19, v20, v21, v22, v23, v24, v25, v26, v27, v28, v29, v30, v31, v32, v33, v34, v35, v36, v37, v38, v39, v40, v41, v42, v43, v44, v45, v46, v47, v48, v49, v50, v51, v52, v53] : List α).getD i x).count x := rfl
    _ = ((List.range 54).map fun i => ([v0, v1, v2, v3, v4, v5, v6, v7, v8, v9, v10, v11, v12, v13, v14, v15, v16, v17, v18, v19, v20, v21, v22, v23, v24, v25, v26, v27, v28, v29, v30, v31, v32, v33, v34, v35, v36, v37, v38, v39, v40, v41, v42, v43, v44, v45, v46, v47, v48, v49, v50, v51, v52, v53] : List α).getD i x).count x :=
        (permIdxF_perm.map _).count_eq x
    _ = ([v0, v1, v2, v3, v4, v5, v6, v7, v8, v9, v10, v11, v12, v13, v14, v15, v16, v17, v18, v19, v20, v21, v22, v23, v24, v25, v26, v27, v28, v29, v30, v31, v32, v33, v34, v35, v36, v37, v38, v39, v40, v41, v42, v43, v44, v45, v46, v47, v48, v49, v50, v51, v52, v53] : List α).count x := rfl

/-- A quarter turn of `B` permutes the 54 stickers: every colour count is
preserved on a fully generic 3-by-3 cube. -/
theorem countTurnB_mk {α : Type} [DecidableEq α] (x : α) (v0 v1 v2 v3 v4 v5 v6 v7 v8 v9 v10 v11 v12 v13 v14 v15 v16 v17 v18 v19 v20 v21 v22 v23 v24 v25 v26 v27 v28 v29 v30 v31 v32 v33 v34 v35 v36 v37 v38 v39 v40 v41 v42 v43 v44 v45 v46 v47 v48 v49 v50 v51 v52 v53 : α) :
    (stickers (turn (mkF v0 v1 v2 v3 v4 v5 v6 v7 v8 v9 v10 v11 v12 v13 v14 v15 v16 v17 v18 v19 v20 v21 v22 v23 v24 v25 v26 v27 v28 v29 v30 v31 v32 v33 v34 v35 v36 v37 v38 v39 v40 v41 v42 v43 v44 v45 v46 v47 v48 v49 v50 v51 v52 v53) 'B')).count x = (stickers (mkF v0 v1 v2 v3 v4 v5 v6 v7 v8 v9 v10 v11 v12 v13 v14 v15 v16 v17 v18 v19 v20 v21 v22 v23 v24 v25 v26 v27 v28 v29 v30 v31 v32 v33 v34 v35 v36 v37 v38 v39 v40 v41 v42 v43 v44 v45 v46 v47 v48 v49 v50 v51 v52 v53)).count x := by
  rw [turnB_mk, stickers_mk, stickers_mk]
  calc ([v38, v41, v44, v3, v4, v5, v6, v7, v8, v9, v10, v11, v12, v13, v14, v15, v16, v17, v2, v19, v20, v1, v22, v23, v0, v25, v26, v33, v30, v27, v34, v31, v28, v35, v32, v29, v36, v37, v53, v39, v40, v52, v42, v43, v51, v45, v46, v47, v48, v49, v50, v18, v21, v24] : List α).count x
      = (permIdxB.map fun i => ([v0, v1, v2, v3, v4, v5, v6, v7, v8, v9, v10, v11, v12, v13, v14, v15, v16, v17, v18, v19, v20, v21, v22, v23, v24, v25, v26, v27, v28, v29, v30, v31, v32, v33, v34, v35, v36, v37, v38, v39, v40, v41, v42, v43, v44, v45, v46, v47, v48, v49, v50, v51, v52, v53] : List α).getD i x).count x := rfl
    _ = ((List.range 54).map fun i => ([v0, v1, v2, v3, v4, v5, v6, v7, v8, v9, v10, v11, v12, v13, v14, v15, v16, v17, v18, v19, v20, v21, v22, v23, v24, v25, v26, v27, v28, v29, v30, v31, v32, v33, v34, v35, v36, v37, v38, v39, v40, v41, v42, v43, v44, v45, v46, v47, v48, v49, v50, v51, v52, v53] : List α).getD i x).count x :=
        (permIdxB_perm.map _).count_eq x
    _ = ([v0, v1, v2, v3, v4, v5, v6, v7, v8, v9, v10, v11, v12, v13, v14, v15, v16, v17, v18, v19, v20, v21, v22, v23, v24, v25, v26, v27, v28, v29, v30, v31, v32, v33, v34, v35, v36, v37, v38, v39, v40, v41, v42, v43, v44, v45, v46, v47, v48, v49, v50, v51, v52, v53] : List α).count x := rfl

/-- A quarter turn of `L` permutes the 54 stickers: every colour count is
preserved on a fully generic 3-by-3 cube. -/
theorem countTurnL_mk {α : Type} [DecidableEq α] (x : α) (v0 v1 v2 v3 v4 v5 v6 v7 v8 v9 v10 v11 v12 v13 v14 v15 v16 v17 v18 v19 v20 v21 v22 v23 v24 v25 v26 v27 v28 v29 v30 v31 v32 v33 v34 v35 v36 v37 v38 v39 v40 v41 v42 v43 v44 v45 v46 v47 v48 v49 v50 v51 v52 v53 : α) :
    (stickers (turn (mkF v0 v1 v2 v3 v4 v5 v6 v7 v8 v9 v10 v11 v12 v13 v14 v15 v16 v17 v18 v19 v20 v21 v22 v23 v24 v25 v26 v27 v28 v29 v30 v31 v32 v33 v34 v35 v36 v37 v38 v39 v40 v41 v42 v43 v44 v45 v46 v47 v48 v49 v50 v51 v52 v53) 'L')).count x = (stickers (mkF v0 v1 v2 v3 v4 v5 v6 v7 v8 v9 v10 v11 v12 v13 v14 v15 v16 v17 v18 v19 v20 v21 v22 v23 v24 v25 v26 v27 v28 v29 v30 v31 v32 v33 v34 v35 v36 v37 v38 v39 v40 v41 v42 v43 v44 v45 v46 v47 v48 v49 v50 v51 v52 v53)).count x := by
  rw [turnL_mk, stickers_mk, stickers_mk]
  calc ([v35, v1, v2, v32, v4, v5, v29, v7, v8, v0, v10, v11, v3, v13, v14, v6, v16, v17, v24, v21, v18, v25, v22, v19, v26, v23, v20, v27, v28, v51, v30, v31, v48, v33, v34, v45, v36, v37, v38, v39, v40, v41, v42, v43, v44, v9, v46, v47, v12, v49, v50, v15, v52, v53] : List α).count x
      = (permIdxL.map fun i => ([v0, v1, v2, v3, v4, v5, v6, v7, v8, v9, v10, v11, v12, v13, v14, v15, v16, v17, v18, v19, v20, v21, v22, v23, v24, v25, v26, v27, v28, v29, v30, v31, v32, v33, v34, v35, v36, v37, v38, v39, v40, v41, v42, v43, v44, v45, v46, v47, v48, v49, v50, v51, v52, v53] : List α).getD i x).count x := rfl
    _ = ((List.range 54).map fun i => ([v0, v1, v2, v3, v4, v5, v6, v7, v8, v9, v10, v11, v12, v13, v14, v15, v16, v17, v18, v19, v20, v21, v22, v23, v24, v25, v26, v27, v28, v29, v30, v31, v32, v33, v34, v35, v36, v37, v38, v39, v40, v41, v42, v43, v44, v45, v46, v47, v48, v49, v50, v51, v52, v53] : List α).getD i x).count x :=
        (permIdxL_perm.map _).count_eq x
    _ = ([v0, v1, v2, v3, v4, v5, v6, v7, v8, v9, v10, v11, v12, v13, v14, v15, v16, v17, v18, v19, v20, v21, v22, v23, v24, v25, v26, v27, v28, v29, v30, v31, v32, v33, v34, v35, v36, v37, v38, v39, v40, v41, v42, v43, v44, v45, v46, v47, v48, v49, v50, v51, v52, v53] : List α).count x := rfl

/-- A quarter turn of `R` permutes the 54 stickers: every colour count is
preserved on a fully generic 3-by-3 cube. -/
theorem countTurnR_mk {α : Type} [DecidableEq α] (x : α) (v0 v1 v2 v3 v4 v5 v6 v7 v8 v9 v10 v11 v12 v13 v14 v15 v16 v17 v18 v19 v20 v21 v22 v23 v24 v25 v26 v27 v28 v29 v30 v31 v32 v33 v34 v35 v36 v37 v38 v39 v40 v41 v42 v43 v44 v45 v46 v47 v48 v49 v50 v51 v52 v53 : α) :
    (stickers (turn (mkF v0 v1 v2 v3 v4 v5 v6 v7 v8 v9 v10 v11 v12 v13 v14 v15 v16 v17 v18 v19 v20 v21 v22 v23 v24 v25 v26 v27 v28 v29 v30 v31 v32 v33 v34 v35 v36 v37 v38 v39 v40 v41 v42 v43 v44 v45 v46 v47 v48 v49 v50 v51 v52 v53) 'R')).count x = (stickers (mkF v0 v1 v2 v3 v4 v5 v6 v7 v8 v9 v10 v11 v12 v13 v14 v15 v16 v17 v18 v19 v20 v21 v22 v23 v24 v25 v26 v27 v28 v29 v30 v31 v32 v33 v34 v35 v36 v37 v38 v39 v40 v41 v42 v43 v44 v45 v46 v47 v48 v49 v50 v51 v52 v53)).count x := by
  rw [turnR_mk, stickers_mk, stickers_mk]
  calc ([v0, v1, v11, v3, v4, v14, v6, v7, v17, v9, v10, v47, v12, v13, v50, v15, v16, v53, v18, v19, v20, v21, v22, v23, v24, v25, v26, v8, v28, v29, v5, v31, v32, v2, v34, v35, v42, v39, v36, v43, v40, v37, v44, v41, v38, v45, v46, v33, v48, v49, v30, v51, v52, v27] : List α).count x
      = (permIdxR.map fun i => ([v0, v1, v2, v3, v4, v5, v6, v7, v8, v9, v10, v11, v12, v13, v14, v15, v16, v17, v18, v19, v20, v21, v22, v23, v24, v25, v26, v27, v28, v29, v30, v31, v32, v33, v34, v35, v36, v37, v38, v39, v40, v41, v42, v43, v44, v45, v46, v47, v48, v49, v50, v51, v52, v53] : List α).getD i x).count x := rfl
    _ = ((List.range 54).map fun i => ([v0, v1, v2, v3, v4, v5, v6, v7, v8, v9, v10, v11, v12, v13, v14, v15, v16, v17, v18, v19, v20, v21, v22, v23, v24, v25, v26, v27, v28, v29, v30, v31, v32, v33, v34, v35, v36, v37, v38, v39, v40, v41, v42, v43, v44, v45, v46, v47, v48, v49, v50, v51, v52, v53] : List α).getD i x).count x :=
        (permIdxR_perm.map _).count_eq x
    _ = ([v0, v1, v2, v3, v4, v5, v6, v7, v8, v9, v10, v11, v12, v13, v14, v15, v16, v17, v18, v19, v20, v21, v22, v23, v24, v25, v26, v27, v28, v29, v30, v31, v32, v33, v34, v35, v36, v37, v38, v39, v40, v41, v42, v43, v44, v45, v46, v47, v48, v49, v50, v51, v52, v53] : List α).count x := rfl

/-- A `y` step permutes the 54 stickers: every colour count is
preserved on a fully generic 3-by-3 cube. -/
theorem countTurnY_mk {α : Type} [DecidableEq α] (x : α) (v0 v1 v2 v3 v4 v5 v6 v7 v8 v9 v10 v11 v12 v13 v14 v15 v16 v17 v18 v19 v20 v21 v22 v23 v24 v25 v26 v27 v28 v29 v30 v31 v32 v33 v34 v35 v36 v37 v38 v39 v40 v41 v42 v43 v44 v45 v46 v47 v48 v49 v50 v51 v52 v53 : α) :
    (stickers (yStep (mkF v0 v1 v2 v3 v4 v5 v6 v7 v8 v9 v10 v11 v12 v13 v14 v15 v16 v17 v18 v19 v20 v21 v22 v23 v24 v25 v26 v27 v28 v29 v30 v31 v32 v33 v34 v35 v36 v37 v38 v39 v40 v41 v42 v43 v44 v45 v46 v47 v48 v49 v50 v51 v52 v53))).count x = (stickers (mkF v0 v1 v2 v3 v4 v5 v6 v7 v8 v9 v10 v11 v12 v13 v14 v15 v16 v17 v18 v19 v20 v21 v22 v23 v24 v25 v26 v27 v28 v29 v30 v31 v32 v33 v34 v35 v36 v37 v38 v39 v40 v41 v42 v43 v44 v45 v46 v47 v48 v49 v50 v51 v52 v53)).count x := by
  rw [ystep_mk, stickers_mk, stickers_mk]
  calc ([v6, v3, v0, v7, v4, v1, v8, v5, v2, v36, v37, v38, v39, v40, v41, v42, v43, v44, v9, v10, v11, v12, v13, v14, v15, v16, v17, v18, v19, v20, v21, v22, v23, v24, v25, v26, v27, v28, v29, v30, v31, v32, v33, v34, v35, v47, v50, v53, v46, v49, v52, v45, v48, v51] : List α).count x
      = (permIdxY.map fun i => ([v0, v1, v2, v3, v4, v5, v6, v7, v8, v9, v10, v11, v12, v13, v14, v15, v16, v17, v18, v19, v20, v21, v22, v23, v24, v25, v26, v27, v28, v29, v30, v31, v32, v33, v34, v35, v36, v37, v38, v39, v40, v41, v42, v43, v44, v45, v46, v47, v48, v49, v50, v51, v52, v53] : List α).getD i x).count x := rfl
    _ = ((List.range 54).map fun i => ([v0, v1, v2, v3, v4, v5, v6, v7, v8, v9, v10, v11, v12, v13, v14, v15, v16, v17, v18, v19, v20, v21, v22, v23, v24, v25, v26, v27, v28, v29, v30, v31, v32, v33, v34, v35, v36, v37, v38, v39, v40, v41, v42, v43, v44, v45, v46, v47, v48, v49, v50, v51, v52, v53] : List α).getD i x).count x :=
        (permIdxY_perm.map _).count_eq x
    _ = ([v0, v1, v2, v3, v4, v5, v6, v7, v8, v9, v10, v11, v12, v13, v14, v15, v16, v17, v18, v19, v20, v21, v22, v23, v24, v25, v26, v27, v28, v29, v30, v31, v32, v33, v34, v35, v36, v37, v38, v39, v40, v41, v42, v43, v44, v45, v46, v47, v48, v49, v50, v51, v52, v53] : List α).count x := rfl

/-- Destructuring a well-formed 3-by-3 grid into its nine cells. -/
theorem wfg_elim {α : Type} {g : Grid α} (h : wfg g = true) :
    ∃ a1 a2 a3 b1 b2 b3 c1 c2 c3, g = [[a1,a2,a3],[b1,b2,b3],[c1,c2,c3]] := by
  simp only [wfg, Bool.and_eq_true, beq_iff_eq, List.all_eq_true] at h
  obtain ⟨h3, hall⟩ := h
  obtain ⟨r1, r2, r3, rfl⟩ := List.length_eq_three.mp h3
  obtain ⟨a1, a2, a3, rfl⟩ := List.length_eq_three.mp (hall r1 (by simp))
  obtain ⟨b1, b2, b3, rfl⟩ := List.length_eq_three.mp (hall r2 (by simp))
  obtain ⟨c1, c2, c3, rfl⟩ := List.length_eq_three.mp (hall r3 (by simp))
  exact ⟨_, _, _, _, _, _, _, _, _, rfl⟩

/-- Every well-formed cube is a fully generic 3-by-3 cube: it equals `mkF`
applied to its 54 stickers. -/
theorem wf_repr {α : Type} {f : Faces α} (h : WF f = true) :
    ∃ v0 v1 v2 v3 v4 v5 v6 v7 v8 v9 v10 v11 v12 v13 v14 v15 v16 v17
      v18 v19 v20 v21 v22 v23 v24 v25 v26 v27 v28 v29 v30 v31 v32 v33 v34 v35
      v36 v37 v38 v39 v40 v41 v42 v43 v44 v45 v46 v47 v48 v49 v50 v51 v52 v53 : α,
      f = mkF v0 v1 v2 v3 v4 v5 v6 v7 v8 v9 v10 v11 v12 v13 v14 v15 v16 v17
        v18 v19 v20 v21 v22 v23 v24 v25 v26 v27 v28 v29 v30 v31 v32 v33 v34 v35
        v36 v37 v38 v39 v40 v41 v42 v43 v44 v45 v46 v47 v48 v49 v50 v51 v52 v53 := by
  obtain ⟨fU, fF, fL, fB, fR, fD⟩ := f
  simp only [WF, Bool.and_eq_true] at h
  obtain ⟨⟨⟨⟨⟨hU, hF⟩, hL⟩, hB⟩, hR⟩, hD⟩ := h
  obtain ⟨u1,u2,u3,u4,u5,u6,u7,u8,u9, rfl⟩ := wfg_elim hU
  obtain ⟨p1,p2,p3,p4,p5,p6,p7,p8,p9, rfl⟩ := wfg_elim hF
  obtain ⟨l1,l2,l3,l4,l5,l6,l7,l8,l9, rfl⟩ := wfg_elim hL
  obtain ⟨b1,b2,b3,b4,b5,b6,b7,b8,b9, rfl⟩ := wfg_elim hB
  obtain ⟨r1,r2,r3,r4,r5,r6,r7,r8,r9, rfl⟩ := wfg_elim hR
  obtain ⟨d1,d2,d3,d4,d5,d6,d7,d8,d9, rfl⟩ := wfg_elim hD
  exact ⟨u1,u2,u3,u4,u5,u6,u7,u8,u9,p1,p2,p3,p4,p5,p6,p7,p8,p9,
    l1,l2,l3,l4,l5,l6,l7,l8,l9,b1,b2,b3,b4,b5,b6,b7,b8,b9,
    r1,r2,r3,r4,r5,r6,r7,r8,r9,d1,d2,d3,d4,d5,d6,d7,d8,d9, rfl⟩

/-- A face turn preserves well-formedness. -/
theorem wf_turn {α : Type} {f : Faces α} (hf : WF f = true) {c : Char}
    (hc : c ∈ faceChars) : WF (turn f c) = true := by
  obtain ⟨v0,v1,v2,v3,v4,v5,v6,v7,v8,v9,v10,v11,v12,v13,v14,v15,v16,v17,
    v18,v19,v20,v21,v22,v23,v24,v25,v26,v27,v28,v29,v30,v31,v32,v33,v34,v35,
    v36,v37,v38,v39,v40,v41,v42,v43,v44,v45,v46,v47,v48,v49,v50,v51,v52,v53, rfl⟩ := wf_repr hf
  fin_cases hc <;>
    simp only [turnU_mk, turnD_mk, turnF_mk, turnB_mk, turnL_mk, turnR_mk, wf_mk]

/-- A `y` step preserves well-formedness. -/
theorem wf_yStep {α : Type} {f : Faces α} (hf : WF f = true) : WF (yStep f) = true := by
  obtain ⟨v0,v1,v2,v3,v4,v5,v6,v7,v8,v9,v10,v11,v12,v13,v14,v15,v16,v17,
    v18,v19,v20,v21,v22,v23,v24,v25,v26,v27,v28,v29,v30,v31,v32,v33,v34,v35,
    v36,v37,v38,v39,v40,v41,v42,v43,v44,v45,v46,v47,v48,v49,v50,v51,v52,v53, rfl⟩ := wf_repr hf
  simp only [ystep_mk, wf_mk]

/-- A face turn preserves every sticker count. -/
theorem count_turn {α : Type} [DecidableEq α] {f : Faces α} (hf : WF f = true) {c : Char}
    (hc : c ∈ faceChars) (x : α) : (stickers (turn f c)).count x = (stickers f).count x := by
  obtain ⟨v0,v1,v2,v3,v4,v5,v6,v7,v8,v9,v10,v11,v12,v13,v14,v15,v16,v17,
    v18,v19,v20,v21,v22,v23,v24,v25,v26,v27,v28,v29,v30,v31,v32,v33,v34,v35,
    v36,v37,v38,v39,v40,v41,v42,v43,v44,v45,v46,v47,v48,v49,v50,v51,v52,v53, rfl⟩ := wf_repr hf
  fin_cases hc
  · apply countTurnU_mk
  · apply countTurnD_mk
  · apply countTurnF_mk
  · apply countTurnB_mk
  · apply countTurnL_mk
  · apply countTurnR_mk

/-- A `y` step preserves every sticker count. -/
theorem count_yStep {α : Type} [DecidableEq α] {f : Faces α} (hf : WF f = true) (x : α) :
    (stickers (yStep f)).count x = (stickers f).count x := by
  obtain ⟨v0,v1,v2,v3,v4,v5,v6,v7,v8,v9,v10,v11,v12,v13,v14,v15,v16,v17,
    v18,v19,v20,v21,v22,v23,v24,v25,v26,v27,v28,v29,v30,v31,v32,v33,v34,v35,
    v36,v37,v38,v39,v40,v41,v42,v43,v44,v45,v46,v47,v48,v49,v50,v51,v52,v53, rfl⟩ := wf_repr hf
  apply countTurnY_mk

/-- `do_moves` treats any non-`y` move through `_rotate`. -/
theorem applyMove_eq_rotate {α : Type} (f : Faces α) {m : Move} (h : ¬ m.face = 'y') :
    applyMove f m = rotate f m := by
  unfold applyMove
  exact if_neg h

/-- A `y` move runs `_y_rotate()` with default flags: one single `y` step,
whatever the move's `invert`/`double` flags. -/
theorem applyMove_y {α : Type} (f : Faces α) (inv dbl : Bool) :
    applyMove f { face := 'y', invert := inv, double := dbl } = yStep f := rfl

/-- `_rotate` on a normal move: one quarter turn. -/
theorem rotate_normal {α : Type} (f : Faces α) (c : Char) :
    rotate f { face := c, invert := false, double := false } = turn f c := rfl

/-- `_rotate` on a prime move: three quarter turns. -/
theorem rotate_prime {α : Type} (f : Faces α) (c : Char) :
    rotate f { face := c, invert := true, double := false } =
      turn (turn (turn f c) c) c := rfl

/-- `_rotate` on a double move: two quarter turns (whatever `invert` is). -/
theorem rotate_double {α : Type} (f : Faces α) (c : Char) (b : Bool) :
    rotate f { face := c, invert := b, double := true } = turn (turn f c) c := rfl

/-- Applying a move and then its flipped version is the identity on
well-formed cubes: the two runs of `_rotate`'s loop always total four
quarter turns. -/
theorem applyMove_flip {α : Type} {f : Faces α} (hf : WF f = true) {m : Move}
    (hm : m.face ∈ faceChars) :
    applyMove (applyMove f m) (flipMove m) = f := by
  obtain ⟨v0,v1,v2,v3,v4,v5,v6,v7,v8,v9,v10,v11,v12,v13,v14,v15,v16,v17,
    v18,v19,v20,v21,v22,v23,v24,v25,v26,v27,v28,v29,v30,v31,v32,v33,v34,v35,
    v36,v37,v38,v39,v40,v41,v42,v43,v44,v45,v46,v47,v48,v49,v50,v51,v52,v53, rfl⟩ := wf_repr hf
  obtain ⟨c, inv, dbl⟩ := m
  have hc : c ∈ faceChars := hm
  have hy : ¬ c = 'y' := by intro h; rw [h] at hc; exact absurd hc (by decide)
  rw [applyMove_eq_rotate _ hy, applyMove_eq_rotate _ hy]
  cases inv <;> cases dbl <;> fin_cases hc <;>
    simp only [flipMove, Bool.not_false, Bool.not_true, rotate_normal, rotate_prime,
      rotate_double, turnU_mk, turnD_mk, turnF_mk, turnB_mk, turnL_mk, turnR_mk]

/-- A face letter that is valid-with-`y` but not `y` is a physical face. -/
theorem mem_faceChars {c : Char} (h : c ∈ faceCharsY) (hy : ¬ c = 'y') :
    c ∈ faceChars := by
  fin_cases h <;> first | decide | exact absurd rfl hy

/-- Every legal move (including `y`) preserves well-formedness. -/
theorem wf_applyMove {α : Type} {f : Faces α} (hf : WF f = true) {m : Move}
    (hm : m.face ∈ faceCharsY) : WF (applyMove f m) = true := by
  obtain ⟨c, inv, dbl⟩ := m
  by_cases hy : c = 'y'
  · subst hy
    rw [applyMove_y]
    exact wf_yStep hf
  · have hc : c ∈ faceChars := mem_faceChars hm hy
    rw [applyMove_eq_rotate _ hy]
    cases inv <;> cases dbl
    · rw [rotate_normal]; exact wf_turn hf hc
    · rw [rotate_double]; exact wf_turn (wf_turn hf hc) hc
    · rw [rotate_prime]; exact wf_turn (wf_turn (wf_turn hf hc) hc) hc
    · rw [rotate_double]; exact wf_turn (wf_turn hf hc) hc

/-- Every legal move (including `y`) preserves every sticker count. -/
theorem count_applyMove {α : Type} [DecidableEq α] {f : Faces α} (hf : WF f = true)
    {m : Move} (hm : m.face ∈ faceCharsY) (x : α) :
    (stickers (applyMove f m)).count x = (stickers f).count x := by
  obtain ⟨c, inv, dbl⟩ := m
  by_cases hy : c = 'y'
  · subst hy
    rw [applyMove_y]
    exact count_yStep hf x
  · have hc : c ∈ faceChars := mem_faceChars hm hy
    rw [applyMove_eq_rotate _ hy]
    cases inv <;> cases dbl
    · rw [rotate_normal]; exact count_turn hf hc x
    · rw [rotate_double]
      rw [count_turn (wf_turn hf hc) hc x]; exact count_turn hf hc x
    · rw [rotate_prime]
      rw [count_turn (wf_turn (wf_turn hf hc) hc) hc x,
        count_turn (wf_turn hf hc) hc x]
      exact count_turn hf hc x
    · rw [rotate_double]
      rw [count_turn (wf_turn hf hc) hc x]; exact count_turn hf hc x

/-- Every physical face letter is also a legal `do_moves` face letter. -/
theorem memY_of_mem {c : Char} (h : c ∈ faceChars) : c ∈ faceCharsY := by
  fin_cases h <;> decide

theorem doMoves_append {α : Type} (f : Faces α) (l1 l2 : List Move) :
    doMoves f (l1 ++ l2) = doMoves (doMoves f l1) l2 :=
  List.foldl_append ..

theorem invertMoves_cons (m : Move) (t : List Move) :
    invertMoves (m :: t) = invertMoves t ++ [flipMove m] := by
  simp [invertMoves]

/-- `invert_moves` is an involution. -/
theorem invertMoves_invertMoves (s : List Move) : invertMoves (invertMoves s) = s := by
  have hflip : ∀ m, flipMove (flipMove m) = m := by
    intro m; obtain ⟨c, inv, dbl⟩ := m; simp [flipMove]
  simp [invertMoves, List.map_reverse, List.map_map, Function.comp_def, hflip]

/-- `do_moves` preserves well-formedness for any sequence of legal moves. -/
theorem wf_doMoves {α : Type} :
    ∀ (s : List Move) (f : Faces α), WF f = true → (∀ m ∈ s, m.face ∈ faceCharsY) →
      WF (doMoves f s) = true := by
  intro s
  induction s with
  | nil => intro f hf _; exact hf
  | cons m t ih =>
    intro f hf hs
    exact ih (applyMove f m) (wf_applyMove hf (hs m (List.mem_cons_self m t)))
      fun x hx => hs x (List.mem_cons_of_mem m hx)

/-- Applying a move list and then its inversion restores any well-formed
cube exactly. -/
theorem doMoves_invertMoves {α : Type} :
    ∀ (s : List Move) (f : Faces α), WF f = true → (∀ m ∈ s, m.face ∈ faceChars) →
      doMoves (doMoves f s) (invertMoves s) = f := by
  intro s
  induction s with
  | nil => intro f _ _; rfl
  | cons m t ih =>
    intro f hf hs
    have hm : m.face ∈ faceChars := hs m (List.mem_cons_self m t)
    have hmY : m.face ∈ faceCharsY := memY_of_mem hm
    have ht : ∀ x ∈ t, x.face ∈ faceChars := fun x hx => hs x (List.mem_cons_of_mem m hx)
    have hf' : WF (applyMove f m) = true := wf_applyMove hf hmY
    show doMoves (doMoves (applyMove f m) t) (invertMoves (m :: t)) = f
    rw [invertMoves_cons, doMoves_append, ih (applyMove f m) hf' ht]
    exact applyMove_flip hf hm

/-- `do_moves` preserves every sticker count for any sequence of legal
moves. -/
theorem count_doMoves {α : Type} [DecidableEq α] :
    ∀ (s : List Move) (f : Faces α), WF f = true → (∀ m ∈ s, m.face ∈ faceCharsY) →
      ∀ x : α, (stickers (doMoves f s)).count x = (stickers f).count x := by
  intro s
  induction s with
  | nil => intro f _ _ x; rfl
  | cons m t ih =>
    intro f hf hs x
    have hm : m.face ∈ faceCharsY := hs m (List.mem_cons_self m t)
    have ht : ∀ z ∈ t, z.face ∈ faceCharsY := fun z hz => hs z (List.mem_cons_of_mem m hz)
    show (stickers (doMoves (applyMove f m) t)).count x = (stickers f).count x
    rw [ih (applyMove f m) (wf_applyMove hf hm) ht x]
    exact count_applyMove hf hm x

/-- C5: for every well-formed cube state and every sequence of physical face
moves, applying the sequence and then its inversion restores the state
exactly, and `invert_moves` is an involution. -/
theorem moves_are_invertible (f : Faces Colour) (s : List Move) (hf : WF f = true)
    (hs : ∀ m ∈ s, m.face ∈ faceChars) :
    doMoves (doMoves f s) (invertMoves s) = f ∧ invertMoves (invertMoves s) = s :=
  ⟨doMoves_invertMoves s f hf hs, invertMoves_invertMoves s⟩

theorem moves_are_invertible_witness :
    doMoves (doMoves solvedFaces (scrambleToMoves "R U' F2 D"))
        (invertMoves (scrambleToMoves "R U' F2 D")) = solvedFaces ∧
      invertMoves (invertMoves (scrambleToMoves "R U' F2 D")) =
        scrambleToMoves "R U' F2 D" :=
  moves_are_invertible solvedFaces (scrambleToMoves "R U' F2 D") (by decide) (by decide)

/-- C6: every move application (face turn or `y` reorientation) permutes the
54 stickers — it preserves the count of every colour on every well-formed
cube — and consequently, starting from the solved cube, every colour
appears exactly 9 times after any legal move sequence. -/
theorem move_application_is_permutation :
    (∀ (f : Faces Colour), WF f = true → ∀ (m : Move), m.face ∈ faceCharsY →
        ∀ x : Colour, (stickers (applyMove f m)).count x = (stickers f).count x) ∧
    (∀ (ms : List Move), (∀ m ∈ ms, m.face ∈ faceCharsY) →
        ∀ x : Colour, (stickers (doMoves solvedFaces ms)).count x = 9) := by
  constructor
  · intro f hf m hm x
    exact count_applyMove hf hm x
  · intro ms hms x
    rw [count_doMoves ms solvedFaces (by decide) hms x]
    cases x <;> decide

theorem move_application_is_permutation_witness :
    ((stickers (applyMove solvedFaces { face := 'F', invert := true, double := false })).count
        Colour.green = (stickers solvedFaces).count Colour.green) ∧
      (stickers (doMoves solvedFaces (scrambleToMoves "R U2 y L'"))).count Colour.red = 9 :=
  ⟨move_application_is_permutation.1 solvedFaces (by decide) _ (by decide) Colour.green,
   move_application_is_permutation.2 (scrambleToMoves "R U2 y L'") (by decide) Colour.red⟩

/-- Unrecorded do-undo round trips on a `HistoryCube` restore it exactly:
the faces return to their prior state and the trace is untouched. -/
theorem hcDoMoves_unrecorded_inv (hc : HistoryCube) (hwf : WF hc.faces = true)
    (mv : List Move) (hv : ∀ m ∈ mv, m.face ∈ faceChars) :
    hcDoMoves (hcDoMoves hc mv false) (invertMoves mv) false = hc := by
  obtain ⟨f, h⟩ := hc
  simp only [hcDoMoves, Bool.false_eq_true, if_false]
  exact congrArg (fun g => HistoryCube.mk g h) (doMoves_invertMoves mv f hwf hv)

/-- In contrast with the broken base-class method of C1's theorem, the
`HistoryCube.get_edge` override is observation-only: for every edge label in
the table it hands back the cube (faces and recorded trace) exactly as it
was. -/
theorem hcGetEdge_observation_only (hc : HistoryCube) (hwf : WF hc.faces = true)
    {piece : String} (hp : piece ∈ EDGE_TO_UF.map Prod.fst) :
    (hcGetEdge hc piece).map Prod.snd = (hcGetEdge hc piece).map fun _ => hc := by
  fin_cases hp <;>
    exact congrArg some (hcDoMoves_unrecorded_inv hc hwf _ (by decide))

/-- The `HistoryCube.get_corner` override is likewise observation-only. -/
theorem hcGetCorner_observation_only (hc : HistoryCube) (hwf : WF hc.faces = true)
    {piece : String} (hp : piece ∈ CORNER_TO_UFR.map Prod.fst) :
    (hcGetCorner hc piece).map Prod.snd = (hcGetCorner hc piece).map fun _ => hc := by
  fin_cases hp <;>
    exact congrArg some (hcDoMoves_unrecorded_inv hc hwf _ (by decide))

/-! ### Claim theorems for notation, cleaner, piece lookup and the solver wrapper -/

/-- A well-formed token of the documented grammar:
`token = FACE ["'" | "2"]`, `FACE ∈ {U,D,L,R,F,B}`. -/
def wfTok (t : String) : Prop :=
  ∃ c ∈ faceChars, t.data = [c] ∨ t.data = [c, primeCh] ∨ t.data = [c, '2']

instance (t : String) : Decidable (wfTok t) := by
  unfold wfTok; exact List.decidableBEx _ faceChars

/-- Serialising the parse of one well-formed token reproduces the token. -/
theorem serialize_parse_token {t : String} (h : wfTok t) :
    moveToStr (tokenToMove t) = t := by
  obtain ⟨data⟩ := t
  obtain ⟨c, hc, hshape⟩ := h
  fin_cases hc <;> rcases hshape with h | h | h <;>
    simp only [String.data] at h <;> subst h <;> decide

/-- C7: on any text all of whose tokens are well-formed, serialising the
parse reproduces the text up to whitespace normalisation. -/
theorem serialize_parse_roundtrip (s : String) (h : ∀ t ∈ pySplit s, wfTok t) :
    movesToScramble (scrambleToMoves s) = String.intercalate " " (pySplit s) := by
  unfold movesToScramble scrambleToMoves
  rw [List.map_map]
  congr 1
  conv_rhs => rw [← List.map_id (pySplit s)]
  exact List.map_congr_left fun t ht => serialize_parse_token (h t ht)

theorem serialize_parse_roundtrip_witness :
    movesToScramble (scrambleToMoves "R  U'   F2 B") =
      String.intercalate " " (pySplit "R  U'   F2 B") :=
  serialize_parse_roundtrip "R  U'   F2 B" (by decide)

/-- Splitting a whitespace-free non-empty character list yields exactly one
token. -/
theorem pySplitAux_no_ws :
    ∀ (l acc : List Char), (∀ c ∈ l, c.isWhitespace = false) →
      pySplitAux l acc =
        if (acc.reverse ++ l).isEmpty then [] else [String.mk (acc.reverse ++ l)] := by
  intro l
  induction l with
  | nil =>
    intro acc _
    cases acc <;> simp [pySplitAux]
  | cons ch cs ih =>
    intro acc hl
    have hch : ch.isWhitespace = false := hl ch (List.mem_cons_self ch cs)
    have hcs : ∀ c ∈ cs, c.isWhitespace = false :=
      fun c hc => hl c (List.mem_cons_of_mem ch hc)
    simp only [pySplitAux, hch, Bool.false_eq_true, if_false]
    rw [ih (ch :: acc) hcs]
    simp [List.reverse_cons, List.append_assoc]

/-- C4 (amended): parsing never fails — any single whitespace-free token is
accepted and turned into a `Move` whose face is the token's first character,
whether or not that character is a face letter. -/
theorem parse_is_unvalidated (t : String) (h1 : t.data ≠ [])
    (h2 : ∀ c ∈ t.data, c.isWhitespace = false) :
    scrambleToMoves t =
      [{ face := t.data.getD 0 ' ', invert := t.data.contains primeCh,
         double := t.data.contains '2' }] := by
  obtain ⟨data⟩ := t
  show (pySplit (String.mk data)).map tokenToMove = _
  unfold pySplit
  rw [pySplitAux_no_ws data [] h2]
  rw [List.reverse_nil, List.nil_append]
  rw [if_neg (by simp [List.isEmpty_iff, h1])]
  rfl

theorem parse_is_unvalidated_witness :
    scrambleToMoves "Q2" =
      [{ face := 'Q', invert := false, double := true }] := by
  have h := parse_is_unvalidated "Q2" (by decide) (by decide)
  simpa using h

/-- C4 counterexample: parsing the malformed text `"X"` does not fail — it
produces a `Move` with the bogus face `X`, which is not one of the legal
face letters. -/
theorem parse_malformed_produces_move :
    scrambleToMoves "X" = [{ face := 'X', invert := false, double := false }] ∧
      'X' ∉ faceCharsY := by decide

/-- C3 counterexample: on `"U U D D U U2"` the optimizer returns
`"U2 D2 U'"` (the final `U U2` pair combines, by the normal+double rule, to
`U'`), not `"U2 D2 U2"`. -/
theorem clean_moves_counterexample :
    cleanMoves "U U D D U U2" = "U2 D2 U'" ∧
      ("U2 D2 U'" : String) ≠ "U2 D2 U2" := by decide

/-- C3 (amended): the four documented reductions of the optimizer, with the
fourth corrected to `"U2 D2 U'"`. -/
theorem clean_moves_examples :
    cleanMoves "R R" = "R2" ∧ cleanMoves "F F' U2 U2" = "" ∧
      cleanMoves "R2 R" = "R'" ∧ cleanMoves "U U D D U U2" = "U2 D2 U'" := by decide

/-- C1: `Cube.get_edge` is *not* observation-only — on the solved cube,
looking up the `UL` edge applies the setup move `U'` and never undoes it
(the computed `invert_moves` result is discarded), leaving the cube in the
rotated, no-longer-solved state. -/
theorem cube_getEdge_not_observation_only :
    (cubeGetEdge solvedFaces "UL").map Prod.snd = some (doMovesStr solvedFaces "U'") ∧
      doMovesStr solvedFaces "U'" ≠ solvedFaces := by decide

/-- C8: `generate_solution` returns the caller's cube unchanged (it only
reads `cube.size`/`cube.faces` and works on a fresh history cube), and its
move-list result depends only on the input cube's face grids. -/
theorem generate_solution_frame (fuel : Nat) (c c' : Cube) (h : c'.faces = c.faces) :
    Option.map Prod.snd (generateSolution fuel c) =
        Option.map (fun _ => c) (generateSolution fuel c) ∧
      Option.map Prod.fst (generateSolution fuel c') =
        Option.map Prod.fst (generateSolution fuel c) := by
  unfold generateSolution
  rw [h]
  cases solutionMoves fuel c.faces <;> simp

theorem generate_solution_frame_witness :
    Option.map Prod.snd (generateSolution 4 (cubeNew 3)) =
        Option.map (fun _ => cubeNew 3) (generateSolution 4 (cubeNew 3)) ∧
      Option.map Prod.fst (generateSolution 4 (cubeNew 3)) =
        Option.map Prod.fst (generateSolution 4 (cubeNew 3)) :=
  generate_solution_frame 4 (cubeNew 3) (cubeNew 3) rfl

/-- C10: a `y` move performs exactly one clockwise whole-cube quarter
reorientation regardless of its `invert`/`double` flags; in particular
`Move('y', invert=true)` does not perform the inverse reorientation, and
`Move('y', double=true)` does not perform the double one. -/
theorem y_move_ignores_flags :
    (∀ (f : Faces Colour) (inv dbl : Bool),
        doMoves f [{ face := 'y', invert := inv, double := dbl }] = yRotate f false false) ∧
      doMoves (doMovesStr solvedFaces "R") [{ face := 'y', invert := true, double := false }] ≠
        yRotate (doMovesStr solvedFaces "R") false true ∧
      doMoves (doMovesStr solvedFaces "R") [{ face := 'y', invert := false, double := true }] ≠
        yRotate (doMovesStr solvedFaces "R") true false :=
  ⟨fun _ _ _ => rfl, by decide, by decide⟩

end Aerohack
